import Mathlib

/-!
Verification development for the google-workspace MCP server
(src/src/index.ts).  The TypeScript source is shallowly embedded:

* untyped JavaScript values are the inductive type JValue;
* every argument validator from index.ts becomes a Lean function
  from JValue to Except String of a typed record, mirroring the
  checks and the normalized object the source builds;
* the remote Google clients (drive, sheets, docs) are an oracle
  structure Env of pure functions returning Except String responses,
  one field per distinct remote call shape the source uses;
* each tool handler becomes a total Lean function from Env and its
  validated arguments to a response Envelope, with the source's
  try/catch turned into a match on the Except results;
* the two self-recursive handlers (folder copy, folder tree listing)
  take a fuel parameter bounding recursion depth; a result of none
  models a recursion that has not completed within that depth.
-/

/-- Model of an untyped JavaScript value as it flows through the
validators and handlers.  Numbers are modelled as integers, which covers
every numeric value the claims exercise. -/
inductive JValue where
  | undefined : JValue
  | null : JValue
  | bool : Bool → JValue
  | num : Int → JValue
  | str : String → JValue
  | arr : List JValue → JValue
  | obj : List (String × JValue) → JValue
  deriving Repr

namespace JValue

/-- JavaScript truthiness of a value (ToBoolean). -/
def truthy : JValue → Bool
  | .undefined => false
  | .null => false
  | .bool b => b
  | .num n => n != 0
  | .str s => s != ""
  | .arr _ => true
  | .obj _ => true

/-- Whether the JavaScript typeof operator yields the string object:
true for plain objects, arrays and null. -/
def isObjectType : JValue → Bool
  | .null => true
  | .arr _ => true
  | .obj _ => true
  | _ => false

/-- Property read v.k on an object; undefined for a missing key and for
every non-object.  The validators only read properties after the source
has checked the receiver, or through optional chaining, so a total
function is faithful here. -/
def get (v : JValue) (k : String) : JValue :=
  match v with
  | .obj fields =>
    match fields.find? (fun f => f.1 == k) with
    | some f => f.2
    | none => .undefined
  | _ => .undefined

/-- The JavaScript logical-or a OR b used by the validators for
defaulting: the left value when truthy, otherwise the right one. -/
def jsOr (a b : JValue) : JValue :=
  if a.truthy then a else b

/-- String interpolation of a value inside a template literal
(ToString): undefined prints as the word undefined, and so on. -/
def interp : JValue → String
  | .undefined => "undefined"
  | .null => "null"
  | .bool b => if b then "true" else "false"
  | .num n => toString n
  | .str s => s
  | .arr xs => String.intercalate "," (interpList xs)
  | .obj _ => "[object Object]"
where
  interpList : List JValue → List String
    | [] => []
    | v :: vs => interp v :: interpList vs

/-- ToNumber coercion restricted to the shapes the source can meet in
the heading-level bound check; values that would coerce to NaN are
none. -/
def toNumber : JValue → Option Int
  | .num n => some n
  | .bool b => some (if b then 1 else 0)
  | .null => some 0
  | .str s => if s = "" then some 0 else s.toInt?
  | _ => none

/-- The comparison v < n as JavaScript evaluates it after ToNumber; a
NaN operand makes the comparison false. -/
def ltNum (v : JValue) (n : Int) : Bool :=
  match v.toNumber with
  | some m => m < n
  | none => false

/-- The comparison v > n as JavaScript evaluates it after ToNumber. -/
def gtNum (v : JValue) (n : Int) : Bool :=
  match v.toNumber with
  | some m => n < m
  | none => false

/-- JSON.stringify.  Fields holding undefined are dropped from objects
and become null inside arrays, as in JavaScript; the claims do not
depend on the whitespace layout, so a compact rendering is used. -/
def stringify : JValue → String
  | .undefined => "null"
  | .null => "null"
  | .bool b => if b then "true" else "false"
  | .num n => toString n
  | .str s => "\x22" ++ s ++ "\x22"
  | .arr xs => "[" ++ String.intercalate "," (stringifyElems xs) ++ "]"
  | .obj fields =>
    "\x7b" ++ String.intercalate "," (stringifyFields fields) ++ "\x7d"
where
  stringifyElems : List JValue → List String
    | [] => []
    | v :: vs => stringify v :: stringifyElems vs
  stringifyFields : List (String × JValue) → List String
    | [] => []
    | (_, .undefined) :: fs => stringifyFields fs
    | (k, v) :: fs => ("\x22" ++ k ++ "\x22:" ++ stringify v) :: stringifyFields fs

end JValue

/-- Option String to JValue: the source frequently forwards possibly
missing response fields, where a missing field is undefined. -/
def jopt : Option String → JValue
  | some s => .str s
  | none => .undefined

/-- A zero-based half-open row and column rectangle, mirroring
sheets_v4.Schema GridRange as the source populates it. -/
structure GridRange where
  startRowIndex : Int
  endRowIndex : Int
  startColumnIndex : Int
  endColumnIndex : Int
  deriving Repr, DecidableEq

/-- Character class test for the regex atom A-Z. -/
def isUpperAZ (c : Char) : Bool := 'A' ≤ c && c ≤ 'Z'

/-- Character class test for the regex atom backslash-d. -/
def isDigit09 (c : Char) : Bool := '0' ≤ c && c ≤ '9'

/-- Decimal value of a digit string, as parseInt reads the capture of
one-or-more digits. -/
def digitsToNat (ds : List Char) : Nat :=
  ds.foldl (fun acc c => acc * 10 + (c.toNat - '0'.toNat)) 0

/-- Matcher for the anchored regex of a1ToGridRange: one-or-more
uppercase letters, one-or-more digits, a colon, one-or-more uppercase
letters, one-or-more digits, end of string.  The three character
classes are pairwise disjoint, so greedy scanning without backtracking
decides the regex exactly.  Returns the four capture groups. -/
def matchA1 (s : String) : Option (List Char × List Char × List Char × List Char) :=
  let p1 := s.data.span isUpperAZ
  match p1.1 with
  | [] => none
  | _ :: _ =>
    let p2 := p1.2.span isDigit09
    match p2.1 with
    | [] => none
    | _ :: _ =>
      match p2.2 with
      | ':' :: rest =>
        let p3 := rest.span isUpperAZ
        match p3.1 with
        | [] => none
        | _ :: _ =>
          let p4 := p3.2.span isDigit09
          match p4.1 with
          | [] => none
          | _ :: _ =>
            match p4.2 with
            | [] => some (p1.1, p2.1, p3.1, p4.1)
            | _ => none
      | _ => none

/-- columnToIndex from index.ts: base-26 letter arithmetic, minus one
for the zero-based index. -/
def columnToIndex (column : List Char) : Int :=
  (column.foldl (fun result c => result * 26 + ((c.toNat : Int) - ('A'.toNat : Int) + 1)) 0) - 1

/-- a1ToGridRange from index.ts: match the A1 range against the regex,
failing with the Invalid A1 range message, and translate the captures
to a zero-based half-open GridRange. -/
def a1ToGridRange (a1Range : String) : Except String GridRange :=
  match matchA1 a1Range with
  | none => .error ("Invalid A1 range: " ++ a1Range)
  | some (startCol, startRow, endCol, endRow) =>
    .ok {
      startRowIndex := (digitsToNat startRow : Int) - 1
      endRowIndex := (digitsToNat endRow : Int)
      startColumnIndex := columnToIndex startCol
      endColumnIndex := columnToIndex endCol + 1
    }

/-! ## Argument validators

One Lean function per validator in index.ts.  Fields the source checks
to be strings or numbers become typed fields of the returned record;
fields the source forwards unchecked stay JValue. -/

/-- The leading check every validator performs: arguments must be a
truthy value of typeof object. -/
def checkArgsObject (args : JValue) : Except String Unit :=
  if !args.truthy || !args.isObjectType then
    .error "Invalid arguments: expected object"
  else
    .ok ()

/-- Required-string check, the translation of the test for a falsy or
non-string field followed by its use as a string. -/
def reqStr (v : JValue) (msg : String) : Except String String :=
  match v with
  | .str s => if s = "" then .error msg else .ok s
  | _ => .error msg

/-- Optional-string check: fails only when the field is truthy and not
a string; the raw value is forwarded either way. -/
def optStrCheck (v : JValue) (msg : String) : Except String Unit :=
  if v.truthy && !(v matches .str _) then .error msg else .ok ()

/-- Optional-number check: fails only when the field is truthy and not
a number. -/
def optNumCheck (v : JValue) (msg : String) : Except String Unit :=
  if v.truthy && !(v matches .num _) then .error msg else .ok ()

/-- One entry of the batch update list after validation. -/
structure SheetUpdate where
  range : String
  values : List JValue
  deriving Repr

structure BatchUpdateArgs where
  spreadsheetId : String
  updates : List SheetUpdate
  deriving Repr

/-- Per-index validation of one update entry, with the index-carrying
messages of the source. -/
def validateOneUpdate (index : Nat) (update : JValue) : Except String SheetUpdate := do
  if !update.truthy || !update.isObjectType then
    throw ("Invalid update at index " ++ toString index ++ ": expected object")
  let range ← reqStr (update.get "range")
    ("Invalid range at index " ++ toString index ++ ": expected non-empty string")
  match update.get "values" with
  | .arr vs => pure { range := range, values := vs }
  | _ => throw ("Invalid values at index " ++ toString index ++ ": expected 2D array")

def validateUpdatesFrom : Nat → List JValue → Except String (List SheetUpdate)
  | _, [] => .ok []
  | i, u :: us => do
    let v ← validateOneUpdate i u
    let rest ← validateUpdatesFrom (i + 1) us
    pure (v :: rest)

def validateBatchUpdateArgs (args : JValue) : Except String BatchUpdateArgs := do
  checkArgsObject args
  let spreadsheetId ← reqStr (args.get "spreadsheetId") "Invalid spreadsheetId: expected non-empty string"
  match args.get "updates" with
  | .arr us => do
    let updates ← validateUpdatesFrom 0 us
    pure { spreadsheetId := spreadsheetId, updates := updates }
  | _ => throw "Invalid updates: expected array"

structure CreateSheetArgs where
  title : String
  sheetTitle : JValue
  data : JValue
  parentFolderId : JValue
  deriving Repr

def validateCreateArgs (args : JValue) : Except String CreateSheetArgs := do
  checkArgsObject args
  let title ← reqStr (args.get "title") "Invalid title: expected non-empty string"
  optStrCheck (args.get "parentFolderId") "Invalid parentFolderId: expected string"
  pure {
    title := title
    sheetTitle := (args.get "sheetTitle").jsOr (.str "Sheet1")
    data := (args.get "data").jsOr (.arr [])
    parentFolderId := args.get "parentFolderId"
  }

structure CreateDocArgs where
  title : String
  content : JValue
  parentFolderId : JValue
  deriving Repr

def validateCreateDocArgs (args : JValue) : Except String CreateDocArgs := do
  checkArgsObject args
  let title ← reqStr (args.get "title") "Invalid title: expected non-empty string"
  optStrCheck (args.get "parentFolderId") "Invalid parentFolderId: expected string"
  pure {
    title := title
    content := (args.get "content").jsOr (.str "")
    parentFolderId := args.get "parentFolderId"
  }

structure InsertTextArgs where
  documentId : String
  text : String
  index : JValue
  deriving Repr

def validateInsertTextArgs (args : JValue) : Except String InsertTextArgs := do
  checkArgsObject args
  let documentId ← reqStr (args.get "documentId") "Invalid documentId: expected non-empty string"
  let text ← reqStr (args.get "text") "Invalid text: expected non-empty string"
  pure { documentId := documentId, text := text, index := (args.get "index").jsOr .undefined }

structure ReplaceTextArgs where
  documentId : String
  find : String
  replace : String
  deriving Repr

def validateReplaceTextArgs (args : JValue) : Except String ReplaceTextArgs := do
  checkArgsObject args
  let documentId ← reqStr (args.get "documentId") "Invalid documentId: expected non-empty string"
  let find ← reqStr (args.get "find") "Invalid find: expected non-empty string"
  match args.get "replace" with
  | .str r => pure { documentId := documentId, find := find, replace := r }
  | _ => throw "Invalid replace: expected string"

structure FormatTextArgs where
  documentId : String
  startIndex : Int
  endIndex : Int
  format : JValue
  deriving Repr

def validateFormatTextArgs (args : JValue) : Except String FormatTextArgs := do
  checkArgsObject args
  let documentId ← reqStr (args.get "documentId") "Invalid documentId: expected non-empty string"
  let startIndex ← match args.get "startIndex" with
    | .num n => if n < 0 then throw "Invalid startIndex: expected non-negative number" else pure n
    | _ => throw "Invalid startIndex: expected non-negative number"
  let endIndex ← match args.get "endIndex" with
    | .num n => if n ≤ startIndex then throw "Invalid endIndex: expected number greater than startIndex" else pure n
    | _ => throw "Invalid endIndex: expected number greater than startIndex"
  let format := args.get "format"
  if !format.truthy || !format.isObjectType then
    throw "Invalid format: expected object"
  pure { documentId := documentId, startIndex := startIndex, endIndex := endIndex, format := format }

structure AppendArgs where
  spreadsheetId : String
  range : String
  values : List JValue
  deriving Repr

def validateAppendArgs (args : JValue) : Except String AppendArgs := do
  checkArgsObject args
  let spreadsheetId ← reqStr (args.get "spreadsheetId") "Invalid spreadsheetId: expected non-empty string"
  let range ← reqStr (args.get "range") "Invalid range: expected non-empty string"
  match args.get "values" with
  | .arr vs => pure { spreadsheetId := spreadsheetId, range := range, values := vs }
  | _ => throw "Invalid values: expected 2D array"

structure FormatCellsArgs where
  spreadsheetId : String
  requests : List JValue
  deriving Repr

def validateFormatArgs (args : JValue) : Except String FormatCellsArgs := do
  checkArgsObject args
  let spreadsheetId ← reqStr (args.get "spreadsheetId") "Invalid spreadsheetId: expected non-empty string"
  match args.get "requests" with
  | .arr rs => pure { spreadsheetId := spreadsheetId, requests := rs }
  | _ => throw "Invalid requests: expected array"

structure DriveSearchArgs where
  query : String
  pageSize : JValue
  pageToken : JValue
  deriving Repr

def validateDriveSearchArgs (args : JValue) : Except String DriveSearchArgs := do
  checkArgsObject args
  let query ← reqStr (args.get "query") "Invalid query: expected non-empty string"
  pure {
    query := query
    pageSize := (args.get "pageSize").jsOr (.num 10)
    pageToken := (args.get "pageToken").jsOr .undefined
  }

structure DriveReadArgs where
  fileId : String
  deriving Repr

def validateDriveReadArgs (args : JValue) : Except String DriveReadArgs := do
  checkArgsObject args
  let fileId ← reqStr (args.get "fileId") "Invalid fileId: expected non-empty string"
  pure { fileId := fileId }

structure DocumentIdArgs where
  documentId : String
  deriving Repr

def validateDocumentIdArgs (args : JValue) : Except String DocumentIdArgs := do
  checkArgsObject args
  let documentId ← reqStr (args.get "documentId") "Invalid documentId: expected non-empty string"
  pure { documentId := documentId }

structure MoveFileArgs where
  fileId : String
  targetFolderId : String
  deriving Repr

def validateMoveFileArgs (args : JValue) : Except String MoveFileArgs := do
  checkArgsObject args
  let fileId ← reqStr (args.get "fileId") "Invalid fileId: expected non-empty string"
  let targetFolderId ← reqStr (args.get "targetFolderId") "Invalid targetFolderId: expected non-empty string"
  pure { fileId := fileId, targetFolderId := targetFolderId }

structure BatchMoveArgs where
  fileIds : List JValue
  targetFolderId : String
  deriving Repr

def validateBatchMoveArgs (args : JValue) : Except String BatchMoveArgs := do
  checkArgsObject args
  match args.get "fileIds" with
  | .arr ids =>
    if ids.isEmpty then
      throw "Invalid fileIds: expected non-empty array"
    else do
      let targetFolderId ← reqStr (args.get "targetFolderId") "Invalid targetFolderId: expected non-empty string"
      pure { fileIds := ids, targetFolderId := targetFolderId }
  | _ => throw "Invalid fileIds: expected non-empty array"

structure CreateFolderArgs where
  name : String
  parentFolderId : JValue
  deriving Repr

def validateCreateFolderArgs (args : JValue) : Except String CreateFolderArgs := do
  checkArgsObject args
  let name ← reqStr (args.get "name") "Invalid name: expected non-empty string"
  optStrCheck (args.get "parentFolderId") "Invalid parentFolderId: expected string"
  pure { name := name, parentFolderId := args.get "parentFolderId" }

/-- Arguments of the recursive folder copy.  The source folder id is a
raw value because the handler re-enters itself with a possibly missing
child id, bypassing the validator. -/
structure CopyFolderArgs where
  sourceFolderId : JValue
  targetParentFolderId : JValue
  newName : JValue
  deriving Repr

def validateCopyFolderArgs (args : JValue) : Except String CopyFolderArgs := do
  checkArgsObject args
  let src ← reqStr (args.get "sourceFolderId") "Invalid sourceFolderId: expected non-empty string"
  optStrCheck (args.get "targetParentFolderId") "Invalid targetParentFolderId: expected string"
  optStrCheck (args.get "newName") "Invalid newName: expected string"
  pure {
    sourceFolderId := .str src
    targetParentFolderId := args.get "targetParentFolderId"
    newName := args.get "newName"
  }

structure SearchContentArgs where
  query : String
  folderId : JValue
  maxResults : JValue
  deriving Repr

def validateSearchContentArgs (args : JValue) : Except String SearchContentArgs := do
  checkArgsObject args
  let query ← reqStr (args.get "query") "Invalid query: expected non-empty string"
  optStrCheck (args.get "folderId") "Invalid folderId: expected string"
  optNumCheck (args.get "maxResults") "Invalid maxResults: expected number"
  pure {
    query := query
    folderId := args.get "folderId"
    maxResults := (args.get "maxResults").jsOr (.num 100)
  }

structure GetRevisionsArgs where
  fileId : String
  maxResults : JValue
  deriving Repr

def validateGetRevisionsArgs (args : JValue) : Except String GetRevisionsArgs := do
  checkArgsObject args
  let fileId ← reqStr (args.get "fileId") "Invalid fileId: expected non-empty string"
  optNumCheck (args.get "maxResults") "Invalid maxResults: expected number"
  pure { fileId := fileId, maxResults := (args.get "maxResults").jsOr (.num 20) }

structure ExportFileArgs where
  fileId : String
  mimeType : String
  deriving Repr

def validateExportFileArgs (args : JValue) : Except String ExportFileArgs := do
  checkArgsObject args
  let fileId ← reqStr (args.get "fileId") "Invalid fileId: expected non-empty string"
  let mimeType ← reqStr (args.get "mimeType") "Invalid mimeType: expected non-empty string"
  pure { fileId := fileId, mimeType := mimeType }

/-- The closed set of batch export formats. -/
inductive ExportFormat where
  | pdf | docx | xlsx | pptx
  deriving Repr, DecidableEq

def ExportFormat.name : ExportFormat → String
  | .pdf => "pdf"
  | .docx => "docx"
  | .xlsx => "xlsx"
  | .pptx => "pptx"

structure BatchExportArgs where
  fileIds : List JValue
  format : ExportFormat
  deriving Repr

def validateBatchExportArgs (args : JValue) : Except String BatchExportArgs := do
  checkArgsObject args
  match args.get "fileIds" with
  | .arr ids =>
    if ids.isEmpty then
      throw "Invalid fileIds: expected non-empty array"
    else
      match args.get "format" with
      | .str "pdf" => pure { fileIds := ids, format := .pdf }
      | .str "docx" => pure { fileIds := ids, format := .docx }
      | .str "xlsx" => pure { fileIds := ids, format := .xlsx }
      | .str "pptx" => pure { fileIds := ids, format := .pptx }
      | _ => throw "Invalid format: expected one of: pdf, docx, xlsx, pptx"
  | _ => throw "Invalid fileIds: expected non-empty array"

structure ListFolderTreeArgs where
  folderId : String
  recursive : Bool
  includeMetadata : Bool
  deriving Repr

def validateListFolderTreeArgs (args : JValue) : Except String ListFolderTreeArgs := do
  checkArgsObject args
  let folderId ← reqStr (args.get "folderId") "Invalid folderId: expected non-empty string"
  pure {
    folderId := folderId
    recursive := !(args.get "recursive" matches .bool false)
    includeMetadata := args.get "includeMetadata" matches .bool true
  }

structure ListPermissionsArgs where
  fileId : String
  deriving Repr

def validateListPermissionsArgs (args : JValue) : Except String ListPermissionsArgs := do
  checkArgsObject args
  let fileId ← reqStr (args.get "fileId") "Invalid fileId: expected non-empty string"
  pure { fileId := fileId }

/-! ## Remote service data and oracle

Response shapes of the googleapis clients, restricted to the fields the
source reads; every field the client marks optional is an Option.  The
environment Env is a pure oracle with one function per remote call
shape; an error value models the client throwing. -/

structure GUser where
  emailAddress : Option String := none
  displayName : Option String := none
  deriving Repr

structure GFile where
  id : Option String := none
  name : Option String := none
  mimeType : Option String := none
  size : Option String := none
  parents : Option (List String) := none
  createdTime : Option String := none
  modifiedTime : Option String := none
  owners : Option (List GUser) := none
  webViewLink : Option String := none
  deriving Repr

structure GFilesList where
  nextPageToken : Option String := none
  files : Option (List GFile) := none
  deriving Repr

/-- Response of drive.files.create.  The id is required: the source
asserts it non-null with the postfix bang, and the API returns one on
every successful create. -/
structure GCreateRes where
  id : String
  name : Option String := none
  webViewLink : Option String := none
  deriving Repr

structure GRevision where
  id : Option String := none
  modifiedTime : Option String := none
  lastModifyingUser : Option GUser := none
  size : Option String := none
  originalFilename : Option String := none
  keepForever : Option Bool := none
  deriving Repr

structure GRevisionsList where
  revisions : Option (List GRevision) := none
  deriving Repr

structure GPermission where
  id : Option String := none
  type : Option String := none
  role : Option String := none
  emailAddress : Option String := none
  domain : Option String := none
  displayName : Option String := none
  expirationTime : Option String := none
  deleted : Option Bool := none
  deriving Repr

structure GPermissionsList where
  permissions : Option (List GPermission) := none
  deriving Repr

structure GTokens where
  refresh_token : Option String := none
  deriving Repr

structure GValuesBatchUpdateRes where
  totalUpdatedCells : Option Int := none
  totalUpdatedRows : Option Int := none
  totalUpdatedColumns : Option Int := none
  totalUpdatedSheets : Option Int := none
  deriving Repr

structure GAppendUpdates where
  updatedRange : Option String := none
  updatedRows : Option Int := none
  deriving Repr

structure GAppendRes where
  updates : Option GAppendUpdates := none
  deriving Repr

structure GTextRun where
  content : Option String := none
  deriving Repr

structure GParaElement where
  textRun : Option GTextRun := none
  deriving Repr

structure GParagraph where
  elements : Option (List GParaElement) := none
  deriving Repr

structure GStructuralElement where
  endIndex : Option Int := none
  paragraph : Option GParagraph := none
  deriving Repr

structure GDocBody where
  content : Option (List GStructuralElement) := none
  deriving Repr

structure GDoc where
  title : Option String := none
  body : Option GDocBody := none
  deriving Repr

structure GReplaceReply where
  occurrencesChanged : Option Int := none
  deriving Repr

structure GDocReply where
  replaceAllText : Option GReplaceReply := none
  deriving Repr

structure GDocBatchRes where
  replies : Option (List GDocReply) := none
  deriving Repr

/-- The oracle for the three remote clients.  File ids flowing into
drive calls are raw values because two call sites forward possibly
missing child ids. -/
structure Env where
  generateAuthUrl : String
  getToken : JValue → Except String GTokens
  filesGet : JValue → String → Except String GFile
  filesGetMedia : JValue → Except String String
  filesUpdate : JValue → String → Option String → String → Except String GFile
  filesCreate : JValue → String → Except String GCreateRes
  filesList : JValue → Except String GFilesList
  filesCopy : JValue → JValue → String → Except String GFile
  filesExportText : JValue → String → Except String String
  filesExportBin : JValue → String → Except String (List Nat)
  revisionsList : String → JValue → String → Except String GRevisionsList
  permissionsList : String → String → Except String GPermissionsList
  sheetsCreate : JValue → Except String String
  valuesBatchUpdate : String → JValue → Except String GValuesBatchUpdateRes
  valuesUpdate : String → String → JValue → Except String Unit
  valuesAppend : String → String → JValue → Except String GAppendRes
  sheetsBatchUpdate : String → JValue → Except String Unit
  docsCreate : String → Except String String
  docsGet : String → Except String GDoc
  docsBatchUpdate : String → JValue → Except String GDocBatchRes

/-! ## Response envelope -/

structure ContentItem where
  type : String
  text : String
  deriving Repr, DecidableEq

/-- The uniform response envelope; isError of none models the field
being absent from the returned object. -/
structure Envelope where
  content : List ContentItem
  isError : Option Bool := none
  deriving Repr, DecidableEq

def okEnvelope (t : String) : Envelope :=
  { content := [{ type := "text", text := t }] }

def errEnvelope (t : String) : Envelope :=
  { content := [{ type := "text", text := t }], isError := some true }

/-- String conversion of a thrown Error object, as a template literal
sees it. -/
def errString (m : String) : String := "Error: " ++ m

/-- The try/catch skeleton shared by every handler: an ok value is the
success text, a caught error is formatted behind the handler's label
and marked as an error envelope. -/
def wrapTry (label : String) (r : Except String String) : Envelope :=
  match r with
  | .ok t => okEnvelope t
  | .error m => errEnvelope (label ++ errString m)

/-- Option Int to JValue for response fields. -/
def jnopt : Option Int → JValue
  | some n => .num n
  | none => .undefined

/-- JavaScript length of a value: defined for arrays and strings,
undefined otherwise. -/
def jsLen : JValue → Option Nat
  | .arr xs => some xs.length
  | .str s => some s.length
  | _ => none

/-! ## Handlers -/

def handleGetAuthUrl (env : Env) : Envelope :=
  wrapTry "Error generating auth URL: " (.ok
    ("Please visit this URL to authorize the application:\n\n" ++ env.generateAuthUrl ++
     "\n\nAfter authorizing, copy the authorization code and use the gsheets_set_auth_code tool."))

def handleSetAuthCode (env : Env) (code : JValue) : Envelope :=
  wrapTry "Error exchanging code for tokens: " (do
    let tokens ← env.getToken code
    pure ("Authorization successful! Please save this refresh token in your environment:\n\nGOOGLE_REFRESH_TOKEN="
      ++ (jopt tokens.refresh_token).interp
      ++ "\n\nRestart the MCP server with this environment variable set."))

def handleDriveSearch (env : Env) (args : DriveSearchArgs) : Envelope :=
  wrapTry "Error searching Drive: " (do
    let response ← env.filesList (.obj [
      ("q", .str args.query),
      ("pageSize", args.pageSize),
      ("pageToken", args.pageToken),
      ("fields", .str "nextPageToken, files(id, name, mimeType, size, modifiedTime, createdTime)")])
    let files := response.files.getD []
    let fileList := String.intercalate "\n" (files.map (fun file =>
      (jopt file.id).interp ++ " " ++ (jopt file.name).interp ++ " (" ++ (jopt file.mimeType).interp ++ ")"))
    let result := "Found " ++ toString files.length ++ " files:\n" ++ fileList
    let nt := jopt response.nextPageToken
    pure (if nt.truthy then
      result ++ "\n\nMore results available. Use pageToken: " ++ nt.interp
    else result))

def handleDriveReadFile (env : Env) (args : DriveReadArgs) : Envelope :=
  wrapTry "Error reading file: " (do
    let fileInfo ← env.filesGet (.str args.fileId) "name, mimeType, size"
    let content ←
      if fileInfo.mimeType = some "application/vnd.google-apps.document" then
        env.filesExportText (.str args.fileId) "text/plain"
      else if fileInfo.mimeType = some "application/vnd.google-apps.spreadsheet" then
        env.filesExportText (.str args.fileId) "text/csv"
      else if (fileInfo.mimeType.getD "").startsWith "text/" || fileInfo.mimeType = some "application/json" then
        env.filesGetMedia (.str args.fileId)
      else
        throw ("Unsupported file type: " ++ (jopt fileInfo.mimeType).interp ++
          ". Can only read text files, Google Docs, and Google Sheets.")
    pure ("Contents of " ++ (jopt fileInfo.name).interp ++ ":\n\n" ++ content))

def handleDriveGetFileInfo (env : Env) (args : DriveReadArgs) : Envelope :=
  wrapTry "Error getting file info: " (do
    let file ← env.filesGet (.str args.fileId)
      "id, name, mimeType, size, createdTime, modifiedTime, owners, permissions"
    let info : JValue := .obj [
      ("id", jopt file.id),
      ("name", jopt file.name),
      ("mimeType", jopt file.mimeType),
      ("size", jopt file.size),
      ("createdTime", jopt file.createdTime),
      ("modifiedTime", jopt file.modifiedTime),
      ("owners", match file.owners with
        | some os => .arr (os.map (fun o => jopt o.emailAddress))
        | none => .undefined)]
    pure info.stringify)

def handleDriveMoveFile (env : Env) (args : MoveFileArgs) : Envelope :=
  wrapTry "Error moving file: " (do
    let file ← env.filesGet (.str args.fileId) "id, name, parents"
    let previousParents := file.parents.map (String.intercalate ",")
    let response ← env.filesUpdate (.str args.fileId) args.targetFolderId previousParents "id, name, parents"
    let result : JValue := .obj [
      ("success", .bool true),
      ("fileId", .str args.fileId),
      ("fileName", jopt response.name),
      ("previousParents", match previousParents with
        | some s => if s = "" then .arr [] else .arr ((s.splitOn ",").map .str)
        | none => .arr []),
      ("newParent", .str args.targetFolderId)]
    pure result.stringify)

/-- One iteration body of the batch move loop: fetch the current
parents, then update with the new parent added and all previous parents
removed. -/
def moveOneFile (env : Env) (target : String) (fileId : JValue) : Except String Unit := do
  let file ← env.filesGet fileId "id, name, parents"
  let previousParents := file.parents.map (String.intercalate ",")
  let _ ← env.filesUpdate fileId target previousParents "id, parents"
  pure ()

/-- Outcome of the batch move loop, in iteration order; attempted
records every id for which an iteration ran. -/
structure BatchMoveOutcome where
  success : List JValue
  failed : List (JValue × String)
  attempted : List JValue
  deriving Repr

/-- The batch move loop: every id is processed; a per-item failure is
bucketed into failed with the caught message and the loop continues. -/
def batchMoveLoop (env : Env) (target : String) : List JValue → BatchMoveOutcome
  | [] => { success := [], failed := [], attempted := [] }
  | fileId :: rest =>
    let r := batchMoveLoop env target rest
    match moveOneFile env target fileId with
    | .ok _ =>
      { success := fileId :: r.success, failed := r.failed, attempted := fileId :: r.attempted }
    | .error m =>
      { success := r.success, failed := (fileId, m) :: r.failed, attempted := fileId :: r.attempted }

/-- The JSON result object of the batch move handler. -/
def batchMoveResult (env : Env) (args : BatchMoveArgs) : JValue :=
  let o := batchMoveLoop env args.targetFolderId args.fileIds
  .obj [
    ("success", .bool true),
    ("movedCount", .num o.success.length),
    ("failedCount", .num o.failed.length),
    ("targetFolderId", .str args.targetFolderId),
    ("details", .obj [
      ("success", .arr o.success),
      ("failed", .arr (o.failed.map (fun p => .obj [("fileId", p.1), ("error", .str p.2)])))])]

def handleDriveBatchMove (env : Env) (args : BatchMoveArgs) : Envelope :=
  wrapTry "Error in batch move: " (.ok (batchMoveResult env args).stringify)

def handleDriveCreateFolder (env : Env) (args : CreateFolderArgs) : Envelope :=
  wrapTry "Error creating folder: " (do
    let fileMetadata : JValue := .obj (
      [("name", .str args.name), ("mimeType", .str "application/vnd.google-apps.folder")] ++
      (if args.parentFolderId.truthy then [("parents", .arr [args.parentFolderId])] else []))
    let response ← env.filesCreate fileMetadata "id, name, parents, webViewLink"
    let result : JValue := .obj [
      ("success", .bool true),
      ("folderId", .str response.id),
      ("name", jopt response.name),
      ("parentFolderId", args.parentFolderId.jsOr (.str "root")),
      ("url", jopt response.webViewLink)]
    pure result.stringify)

/-- One drive.files.copy request as issued by the folder copy, recorded
so that name preservation is visible in the theorems. -/
structure CopyCall where
  fileId : JValue
  name : JValue
  parents : List String
  deriving Repr

/-- The per-invocation counters of the folder copy handler.  They
count only the children of the one source folder: the recursive call
returns its own envelope, whose counters the caller discards. -/
structure CopyCounts where
  folders : Nat := 0
  files : Nat := 0
  errors : List String := []
  deriving Repr

/-- The child loop of the folder copy, parameterized by the recursive
re-entry (the handler calling itself on a sub-folder).  A folder child
is recursed into and then counted, regardless of what the recursive
call returned; a file child is copied under its own name, and a failure
is recorded without stopping the loop. -/
def copyChildrenWith (env : Env)
    (recur : CopyFolderArgs → Option (Except String JValue × List CopyCall))
    (newFolderId : String) : List GFile → Option (CopyCounts × List CopyCall)
  | [] => some ({}, [])
  | file :: rest =>
    if file.mimeType = some "application/vnd.google-apps.folder" then
      match recur {
          sourceFolderId := jopt file.id
          targetParentFolderId := .str newFolderId
          newName := .undefined } with
      | none => none
      | some (_, subcalls) =>
        match copyChildrenWith env recur newFolderId rest with
        | none => none
        | some (counts, calls) =>
          some ({ counts with folders := counts.folders + 1 }, subcalls ++ calls)
    else
      let call : CopyCall := { fileId := jopt file.id, name := jopt file.name, parents := [newFolderId] }
      let step : CopyCounts → CopyCounts :=
        match env.filesCopy (jopt file.id)
            (.obj [("name", jopt file.name), ("parents", .arr [.str newFolderId])]) "id, name" with
        | .ok copiedFile =>
          if (jopt copiedFile.id).truthy then
            fun counts => { counts with files := counts.files + 1 }
          else
            fun counts => { counts with errors :=
              ("Failed to copy " ++ (jopt file.name).interp ++ ": No file ID returned") :: counts.errors }
        | .error m =>
          fun counts => { counts with errors :=
            ("Failed to copy " ++ (jopt file.name).interp ++ ": " ++ m) :: counts.errors }
      match copyChildrenWith env recur newFolderId rest with
      | none => none
      | some (counts, calls) => some (step counts, call :: calls)

/-- The folder copy handler body, with a recursion-depth fuel: none
models a recursion that has not completed within the given depth.  The
pair carries the try result (success text or caught error) and the
list of issued file copy requests. -/
def copyFolderRun (env : Env) : Nat → CopyFolderArgs → Option (Except String JValue × List CopyCall)
  | 0, _ => none
  | fuel + 1, args =>
    match env.filesGet args.sourceFolderId "id, name" with
    | .error m => some (.error m, [])
    | .ok sourceFolder =>
      let newFolderName := args.newName.jsOr (.str ("Copy of " ++ (jopt sourceFolder.name).interp))
      let newFolderMetadata : JValue := .obj (
        [("name", newFolderName), ("mimeType", .str "application/vnd.google-apps.folder")] ++
        (if args.targetParentFolderId.truthy then [("parents", .arr [args.targetParentFolderId])] else []))
      match env.filesCreate newFolderMetadata "id, name, webViewLink" with
      | .error m => some (.error m, [])
      | .ok newFolder =>
        let newFolderId := newFolder.id
        match env.filesList (.obj [
          ("q", .str ("\x27" ++ args.sourceFolderId.interp ++ "\x27 in parents and trashed=false")),
          ("fields", .str "files(id, name, mimeType)")]) with
        | .error m => some (.error m, [])
        | .ok files =>
          match copyChildrenWith env (copyFolderRun env fuel) newFolderId (files.files.getD []) with
          | none => none
          | some (counts, calls) =>
            let result : JValue := .obj [
              ("success", .bool true),
              ("newFolderId", .str newFolderId),
              ("newFolderName", newFolderName),
              ("url", jopt newFolder.webViewLink),
              ("sourceFilesFound", .num (files.files.getD []).length),
              ("copiedFiles", .num counts.files),
              ("copiedFolders", .num counts.folders),
              ("errors", if counts.errors.isEmpty then .undefined else .arr (counts.errors.map .str))]
            some (.ok result, calls)

def handleDriveCopyFolder (env : Env) (fuel : Nat) (args : CopyFolderArgs) : Option Envelope :=
  (copyFolderRun env fuel args).map (fun r =>
    wrapTry "Error copying folder: " (r.1.map JValue.stringify))

def handleDriveSearchContent (env : Env) (args : SearchContentArgs) : Envelope :=
  wrapTry "Error searching content: " (do
    let query := "fullText contains \x27" ++ args.query ++ "\x27 and trashed=false" ++
      (if args.folderId.truthy then " and \x27" ++ args.folderId.interp ++ "\x27 in parents" else "")
    let response ← env.filesList (.obj [
      ("q", .str query),
      ("pageSize", args.maxResults),
      ("fields", .str "files(id, name, mimeType, modifiedTime, webViewLink, owners)"),
      ("orderBy", .str "modifiedTime desc")])
    let files := response.files.getD []
    let result : JValue := .obj [
      ("success", .bool true),
      ("query", .str args.query),
      ("resultCount", .num files.length),
      ("results", .arr (files.map (fun f => .obj [
        ("id", jopt f.id),
        ("name", jopt f.name),
        ("type", jopt f.mimeType),
        ("modified", jopt f.modifiedTime),
        ("url", jopt f.webViewLink),
        ("owner", match f.owners with
          | some (o :: _) => jopt o.emailAddress
          | _ => .undefined)])))]
    pure result.stringify)

def handleDriveGetRevisions (env : Env) (args : GetRevisionsArgs) : Envelope :=
  wrapTry "Error getting revisions: " (do
    let response ← env.revisionsList args.fileId args.maxResults
      "revisions(id, modifiedTime, lastModifyingUser, size, originalFilename, keepForever)"
    let revisions := response.revisions.getD []
    let result : JValue := .obj [
      ("success", .bool true),
      ("fileId", .str args.fileId),
      ("revisionCount", .num revisions.length),
      ("revisions", .arr (revisions.map (fun r => .obj [
        ("id", jopt r.id),
        ("modifiedTime", jopt r.modifiedTime),
        ("modifiedBy", (jopt (r.lastModifyingUser.bind (fun u => u.displayName))).jsOr
          (jopt (r.lastModifyingUser.bind (fun u => u.emailAddress)))),
        ("size", jopt r.size),
        ("filename", jopt r.originalFilename),
        ("keepForever", match r.keepForever with
          | some b => .bool b
          | none => .undefined)])))]
    pure result.stringify)

def base64Alphabet : List Char :=
  "ABCDEFGHIJKLMNOPQRSTUVWXYZabcdefghijklmnopqrstuvwxyz0123456789+/".data

def base64Digit (n : Nat) : Char := base64Alphabet.getD n 'A'

/-- Base64 rendering of a byte list, as Buffer.toString base64
produces it. -/
def base64Encode : List Nat → String
  | [] => ""
  | [a] =>
    String.mk [base64Digit (a / 4), base64Digit (a % 4 * 16)] ++ "=="
  | [a, b] =>
    String.mk [base64Digit (a / 4), base64Digit (a % 4 * 16 + b / 16), base64Digit (b % 16 * 4)] ++ "="
  | a :: b :: c :: rest =>
    String.mk [base64Digit (a / 4), base64Digit (a % 4 * 16 + b / 16),
      base64Digit (b % 16 * 4 + c / 64), base64Digit (c % 64)] ++ base64Encode rest

/-- Fixed-point rendering of sizeInBytes / 1024 with two decimals, the
toFixed display the export handler builds; rounding is to the nearest
hundredth. -/
def formatKB (n : Nat) : String :=
  let h := (n * 100 + 512) / 1024
  toString (h / 100) ++ "." ++ (if h % 100 < 10 then "0" else "") ++ toString (h % 100)

def handleDriveExportFile (env : Env) (args : ExportFileArgs) : Envelope :=
  wrapTry "Error exporting file: " (do
    let data ← env.filesExportBin (.str args.fileId) args.mimeType
    let base64 := base64Encode data
    let sizeInBytes := data.length
    let result : JValue := .obj [
      ("success", .bool true),
      ("fileId", .str args.fileId),
      ("mimeType", .str args.mimeType),
      ("sizeInBytes", .num sizeInBytes),
      ("sizeFormatted", .str (formatKB sizeInBytes ++ " KB")),
      ("base64Data", .str (base64.take 100 ++ "... (truncated for display)")),
      ("note", .str "Full base64 data available but truncated in output. Use this for downloads.")]
    pure result.stringify)

/-- The fixed export format to mime type map of the batch export
handler. -/
def exportMime : ExportFormat → String
  | .pdf => "application/pdf"
  | .docx => "application/vnd.openxmlformats-officedocument.wordprocessingml.document"
  | .xlsx => "application/vnd.openxmlformats-officedocument.spreadsheetml.sheet"
  | .pptx => "application/vnd.openxmlformats-officedocument.presentationml.presentation"

/-- The batch export loop: per-item try/catch, never aborting on a
single failure. -/
def batchExportLoop (env : Env) (mimeType : String) :
    List JValue → List (JValue × Nat) × List (JValue × String)
  | [] => ([], [])
  | fileId :: rest =>
    let r := batchExportLoop env mimeType rest
    match env.filesExportBin fileId mimeType with
    | .ok data => ((fileId, data.length) :: r.1, r.2)
    | .error m => (r.1, (fileId, m) :: r.2)

/-- The JSON result object of the batch export handler. -/
def batchExportResult (env : Env) (args : BatchExportArgs) : JValue :=
  let mimeType := exportMime args.format
  let results := batchExportLoop env mimeType args.fileIds
  .obj [
    ("success", .bool true),
    ("format", .str args.format.name),
    ("mimeType", .str mimeType),
    ("exportedCount", .num results.1.length),
    ("failedCount", .num results.2.length),
    ("totalSize", .num ((results.1.map (fun p => (p.2 : Int))).sum)),
    ("details", .obj [
      ("success", .arr (results.1.map (fun p => .obj [("fileId", p.1), ("size", .num p.2)]))),
      ("failed", .arr (results.2.map (fun p => .obj [("fileId", p.1), ("error", .str p.2)])))])]

def handleDriveBatchExport (env : Env) (args : BatchExportArgs) : Envelope :=
  wrapTry "Error in batch export: " (.ok (batchExportResult env args).stringify)

/-- The child loop of the recursive tree listing, parameterized by the
recursive re-entry; entries without id or name are skipped; a folder
child is recursed into when the recursive flag is set, splicing its
results after the entry. -/
def listTreeChildrenWith
    (recur : String → String → Option (Except String (List JValue)))
    (includeMetadata recursive : Bool) (path : String) :
    List GFile → Option (Except String (List JValue))
  | [] => some (.ok [])
  | file :: rest =>
    if !(jopt file.id).truthy || !(jopt file.name).truthy then
      listTreeChildrenWith recur includeMetadata recursive path rest
    else
      let name := (jopt file.name).interp
      let filePath := if path ≠ "" then path ++ "/" ++ name else name
      let fileInfo : JValue := .obj (
        [("id", jopt file.id), ("name", jopt file.name), ("path", .str filePath),
         ("type", jopt file.mimeType)] ++
        (if includeMetadata then
          [("size", jopt file.size), ("created", jopt file.createdTime),
           ("modified", jopt file.modifiedTime),
           ("owner", match file.owners with
             | some (o :: _) => jopt o.emailAddress
             | _ => .undefined),
           ("url", jopt file.webViewLink)]
        else []))
      if recursive && file.mimeType = some "application/vnd.google-apps.folder" then
        match recur ((jopt file.id).interp) filePath with
        | none => none
        | some (.error m) => some (.error m)
        | some (.ok subFiles) =>
          match listTreeChildrenWith recur includeMetadata recursive path rest with
          | none => none
          | some (.error m) => some (.error m)
          | some (.ok restFiles) => some (.ok (fileInfo :: (subFiles ++ restFiles)))
      else
        match listTreeChildrenWith recur includeMetadata recursive path rest with
        | none => none
        | some (.error m) => some (.error m)
        | some (.ok restFiles) => some (.ok (fileInfo :: restFiles))

/-- listFilesRecursive from the tree listing handler, with a
recursion-depth fuel. -/
def listTreeRec (env : Env) (includeMetadata recursive : Bool) :
    Nat → String → String → Option (Except String (List JValue))
  | 0, _, _ => none
  | fuel + 1, folderId, path =>
    let fields := if includeMetadata then
        "files(id, name, mimeType, size, createdTime, modifiedTime, owners, webViewLink)"
      else
        "files(id, name, mimeType)"
    match env.filesList (.obj [
      ("q", .str ("\x27" ++ folderId ++ "\x27 in parents and trashed=false")),
      ("fields", .str fields),
      ("pageSize", .num 1000)]) with
    | .error m => some (.error m)
    | .ok response =>
      listTreeChildrenWith (listTreeRec env includeMetadata recursive fuel)
        includeMetadata recursive path (response.files.getD [])

def handleDriveListFolderTree (env : Env) (fuel : Nat) (args : ListFolderTreeArgs) : Option Envelope :=
  (listTreeRec env args.includeMetadata args.recursive fuel args.folderId "").map (fun r =>
    wrapTry "Error listing folder tree: " (r.map (fun allFiles =>
      (JValue.obj [
        ("success", .bool true),
        ("folderId", .str args.folderId),
        ("totalFiles", .num allFiles.length),
        ("recursive", .bool args.recursive),
        ("includeMetadata", .bool args.includeMetadata),
        ("files", .arr allFiles)]).stringify)))

def handleDriveListPermissions (env : Env) (args : ListPermissionsArgs) : Envelope :=
  wrapTry "Error listing permissions: " (do
    let response ← env.permissionsList args.fileId
      "permissions(id, type, role, emailAddress, domain, displayName, expirationTime, deleted)"
    let permissions := response.permissions.getD []
    let result : JValue := .obj [
      ("success", .bool true),
      ("fileId", .str args.fileId),
      ("permissionCount", .num permissions.length),
      ("permissions", .arr (permissions.map (fun p => .obj [
        ("id", jopt p.id),
        ("type", jopt p.type),
        ("role", jopt p.role),
        ("email", jopt p.emailAddress),
        ("domain", jopt p.domain),
        ("displayName", jopt p.displayName),
        ("expirationTime", jopt p.expirationTime),
        ("deleted", match p.deleted with
          | some b => .bool b
          | none => .undefined)])))]
    pure result.stringify)

def handleBatchUpdate (env : Env) (args : BatchUpdateArgs) : Envelope :=
  wrapTry "Error updating spreadsheet: " (do
    let body : JValue := .obj [
      ("valueInputOption", .str "USER_ENTERED"),
      ("data", .arr (args.updates.map (fun u => .obj [("range", .str u.range), ("values", .arr u.values)])))]
    let response ← env.valuesBatchUpdate args.spreadsheetId body
    let result : JValue := .obj [
      ("success", .bool true),
      ("updatedCells", jnopt response.totalUpdatedCells),
      ("updatedRows", jnopt response.totalUpdatedRows),
      ("updatedColumns", jnopt response.totalUpdatedColumns),
      ("updatedSheets", jnopt response.totalUpdatedSheets)]
    pure result.stringify)

def handleCreateAndPopulate (env : Env) (args : CreateSheetArgs) : Envelope :=
  wrapTry "Error creating spreadsheet: " (do
    let createBody : JValue := .obj [
      ("properties", .obj [("title", .str args.title)]),
      ("sheets", .arr [.obj [("properties", .obj [("title", args.sheetTitle.jsOr (.str "Sheet1"))])]])]
    let spreadsheetId ← env.sheetsCreate createBody
    let sheetName := args.sheetTitle.jsOr (.str "Sheet1")
    if args.data.truthy && (jsLen args.data).getD 0 > 0 then
      let _ ← env.valuesUpdate spreadsheetId (sheetName.interp ++ "!A1") (.obj [("values", args.data)])
      pure ()
    if args.parentFolderId.truthy then
      let file ← env.filesGet (.str spreadsheetId) "parents"
      let previousParents := file.parents.map (String.intercalate ",")
      let _ ← env.filesUpdate (.str spreadsheetId) args.parentFolderId.interp previousParents "id, parents"
      pure ()
    let result : JValue := .obj [
      ("success", .bool true),
      ("spreadsheetId", .str spreadsheetId),
      ("url", .str ("https://docs.google.com/spreadsheets/d/" ++ spreadsheetId ++ "/edit")),
      ("rowsAdded", .num ((jsLen args.data).getD 0)),
      ("parentFolderId", args.parentFolderId.jsOr (.str "root"))]
    pure result.stringify)

def handleAppendRows (env : Env) (args : AppendArgs) : Envelope :=
  wrapTry "Error appending rows: " (do
    let response ← env.valuesAppend args.spreadsheetId args.range (.obj [("values", .arr args.values)])
    let result : JValue := .obj [
      ("success", .bool true),
      ("updatedRange", jopt (response.updates.bind (fun u => u.updatedRange))),
      ("updatedRows", jnopt (response.updates.bind (fun u => u.updatedRows)))]
    pure result.stringify)

/-- Property read through a receiver that may be null or undefined; a
member access on those throws, mirroring the uncaught TypeError inside
the format cells mapping. -/
def jsMemberStrict (v : JValue) (k : String) : Except String JValue :=
  match v with
  | .undefined => .error ("Cannot read properties of undefined (reading \x27" ++ k ++ "\x27)")
  | .null => .error ("Cannot read properties of null (reading \x27" ++ k ++ "\x27)")
  | _ => .ok (v.get k)

/-- Object.keys of a value: throws on null and undefined, index keys
for an array, field names for an object, empty for other primitives. -/
def objectKeys : JValue → Except String (List String)
  | .undefined => .error "Cannot convert undefined or null to object"
  | .null => .error "Cannot convert undefined or null to object"
  | .obj fields => .ok (fields.map (fun f => f.1))
  | .arr xs => .ok ((List.range xs.length).map toString)
  | _ => .ok []

def gridRangeToJ (gr : GridRange) : JValue :=
  .obj [
    ("startRowIndex", .num gr.startRowIndex),
    ("endRowIndex", .num gr.endRowIndex),
    ("startColumnIndex", .num gr.startColumnIndex),
    ("endColumnIndex", .num gr.endColumnIndex)]

/-- The per-request mapping of the format cells handler: translate the
A1 range (the thrown Invalid A1 range error propagates to the handler
catch) and build the repeatCell request. -/
def formatCellsOneRequest (req : JValue) : Except String JValue := do
  let rangeV ← jsMemberStrict req "range"
  let range ← match rangeV with
    | .str s => a1ToGridRange s
    | .undefined => throw "Cannot read properties of undefined (reading \x27match\x27)"
    | .null => throw "Cannot read properties of null (reading \x27match\x27)"
    | _ => throw "req.range.match is not a function"
  let format := req.get "format"
  let keys ← objectKeys format
  let fields := String.intercalate "," (keys.map (fun k => "userEnteredFormat." ++ k))
  pure (.obj [("repeatCell", .obj [
    ("range", gridRangeToJ range),
    ("cell", .obj [("userEnteredFormat", format)]),
    ("fields", .str fields)])])

def handleFormatCells (env : Env) (args : FormatCellsArgs) : Envelope :=
  wrapTry "Error formatting cells: " (do
    let requests ← args.requests.mapM formatCellsOneRequest
    let _ ← env.sheetsBatchUpdate args.spreadsheetId (.obj [("requests", .arr requests)])
    let result : JValue := .obj [
      ("success", .bool true),
      ("appliedFormats", .num requests.length)]
    pure result.stringify)

def handleCreateDocument (env : Env) (args : CreateDocArgs) : Envelope :=
  wrapTry "Error creating document: " (do
    let documentId ← env.docsCreate args.title
    let hasContent ←
      if args.content.truthy then
        match args.content with
        | .str s => pure (s.trim != "")
        | _ => throw "args.content.trim is not a function"
      else
        pure false
    if hasContent then
      let _ ← env.docsBatchUpdate documentId (.obj [("requests", .arr [.obj [
        ("insertText", .obj [("location", .obj [("index", .num 1)]), ("text", args.content)])]])])
      pure ()
    if args.parentFolderId.truthy then
      let file ← env.filesGet (.str documentId) "parents"
      let previousParents := file.parents.map (String.intercalate ",")
      let _ ← env.filesUpdate (.str documentId) args.parentFolderId.interp previousParents "id, parents"
      pure ()
    let result : JValue := .obj [
      ("success", .bool true),
      ("documentId", .str documentId),
      ("url", .str ("https://docs.google.com/document/d/" ++ documentId ++ "/edit")),
      ("title", .str args.title),
      ("parentFolderId", args.parentFolderId.jsOr (.str "root"))]
    pure result.stringify)

/-- Extraction of the plain text of a document from its structural
elements, as the get document handler walks them. -/
def extractDocText (doc : GDoc) : String :=
  let els := match doc.body with
    | some b => b.content.getD []
    | none => []
  els.foldl (fun acc el =>
    match el.paragraph with
    | some p =>
      (p.elements.getD []).foldl (fun acc2 pe =>
        match pe.textRun with
        | some tr => acc2 ++ tr.content.getD ""
        | none => acc2) acc
    | none => acc) ""

def handleGetDocument (env : Env) (args : DocumentIdArgs) : Envelope :=
  wrapTry "Error getting document: " (do
    let doc ← env.docsGet args.documentId
    pure ("Document: " ++ (jopt doc.title).interp ++ "\n\nContent:\n" ++ extractDocText doc))

/-- The end-of-document index scan shared by insert and append: start
at one and take the maximum truthy element end index minus one. -/
def docEndIndex (doc : GDoc) : Int :=
  let els := match doc.body with
    | some b => b.content.getD []
    | none => []
  els.foldl (fun acc el =>
    match el.endIndex with
    | some n => if n ≠ 0 then max acc (n - 1) else acc
    | none => acc) 1

def handleInsertText (env : Env) (args : InsertTextArgs) : Envelope :=
  wrapTry "Error inserting text: " (do
    let insertIndex ←
      match args.index with
      | .undefined => do
        let doc ← env.docsGet args.documentId
        pure (JValue.num (docEndIndex doc))
      | v => pure v
    let _ ← env.docsBatchUpdate args.documentId (.obj [("requests", .arr [.obj [
      ("insertText", .obj [("location", .obj [("index", insertIndex)]), ("text", .str args.text)])]])])
    let result : JValue := .obj [
      ("success", .bool true),
      ("insertedAt", insertIndex),
      ("textLength", .num args.text.length)]
    pure result.stringify)

def handleAppendText (env : Env) (args : InsertTextArgs) : Envelope :=
  wrapTry "Error appending text: " (do
    let doc ← env.docsGet args.documentId
    let endIndex := docEndIndex doc
    let _ ← env.docsBatchUpdate args.documentId (.obj [("requests", .arr [.obj [
      ("insertText", .obj [("location", .obj [("index", .num endIndex)]), ("text", .str args.text)])]])])
    let result : JValue := .obj [
      ("success", .bool true),
      ("appendedAt", .num endIndex),
      ("textLength", .num args.text.length)]
    pure result.stringify)

def handleReplaceText (env : Env) (args : ReplaceTextArgs) : Envelope :=
  wrapTry "Error replacing text: " (do
    let response ← env.docsBatchUpdate args.documentId (.obj [("requests", .arr [.obj [
      ("replaceAllText", .obj [
        ("containsText", .obj [("text", .str args.find), ("matchCase", .bool true)]),
        ("replaceText", .str args.replace)])]])])
    let replaceCount := match response.replies with
      | some (r :: _) =>
        match r.replaceAllText with
        | some ra => ra.occurrencesChanged.getD 0
        | none => 0
      | _ => 0
    let result : JValue := .obj [
      ("success", .bool true),
      ("replacements", .num replaceCount),
      ("find", .str args.find),
      ("replace", .str args.replace)]
    pure result.stringify)

def handleFormatText (env : Env) (args : FormatTextArgs) : Envelope :=
  wrapTry "Error formatting text: " (do
    let fmt := args.format
    let entries : List (String × JValue) :=
      (if fmt.get "bold" matches .undefined then [] else [("bold", fmt.get "bold")]) ++
      (if fmt.get "italic" matches .undefined then [] else [("italic", fmt.get "italic")]) ++
      (if fmt.get "underline" matches .undefined then [] else [("underline", fmt.get "underline")]) ++
      (if fmt.get "fontSize" matches .undefined then [] else
        [("fontSize", .obj [("magnitude", fmt.get "fontSize"), ("unit", .str "PT")])])
    let fields := String.intercalate "," (entries.map (fun e => e.1))
    let _ ← env.docsBatchUpdate args.documentId (.obj [("requests", .arr [.obj [
      ("updateTextStyle", .obj [
        ("range", .obj [("startIndex", .num args.startIndex), ("endIndex", .num args.endIndex)]),
        ("textStyle", .obj entries),
        ("fields", .str fields)])]])])
    let result : JValue := .obj [
      ("success", .bool true),
      ("formattedRange", .str (toString args.startIndex ++ "-" ++ toString args.endIndex)),
      ("appliedFormat", fmt)]
    pure result.stringify)

def handleSetHeading (env : Env) (args : FormatTextArgs) (headingLevel : JValue) : Envelope :=
  wrapTry "Error setting heading: " (do
    let namedStyleType := "HEADING_" ++ headingLevel.interp
    let _ ← env.docsBatchUpdate args.documentId (.obj [("requests", .arr [.obj [
      ("updateParagraphStyle", .obj [
        ("range", .obj [("startIndex", .num args.startIndex), ("endIndex", .num args.endIndex)]),
        ("paragraphStyle", .obj [("namedStyleType", .str namedStyleType)]),
        ("fields", .str "namedStyleType")])]])])
    let result : JValue := .obj [
      ("success", .bool true),
      ("headingLevel", headingLevel),
      ("formattedRange", .str (toString args.startIndex ++ "-" ++ toString args.endIndex))]
    pure result.stringify)

/-! ## Dispatch

The CallToolRequestSchema handler: a switch over the tool name, each
case validating then delegating, inside one try/catch that converts any
thrown error into an error envelope.  The fuel bounds the depth of the
two recursive handlers; the inner result is an Option so that an
unfinished recursion is visible as none. -/

/-- The declared property names of the gdocs set heading input schema,
as listed in the capability manifest. -/
def gdocsSetHeadingSchemaProperties : List String :=
  ["documentId", "startIndex", "endIndex", "headingLevel"]

/-- The declared required field names of the gdocs set heading input
schema. -/
def gdocsSetHeadingSchemaRequired : List String :=
  ["documentId", "startIndex", "endIndex", "headingLevel"]

/-- The switch body: a thrown validation error or unknown tool name is
an error value; a handler outcome is an envelope (none when a recursive
handler exhausts its depth budget). -/
def dispatchTool (env : Env) (fuel : Nat) (name : String) (args : JValue) :
    Except String (Option Envelope) :=
  match name with
  | "gsheets_batch_update" =>
    (validateBatchUpdateArgs args).map (fun a => some (handleBatchUpdate env a))
  | "gsheets_create_and_populate" =>
    (validateCreateArgs args).map (fun a => some (handleCreateAndPopulate env a))
  | "gsheets_append_rows" =>
    (validateAppendArgs args).map (fun a => some (handleAppendRows env a))
  | "gsheets_format_cells" =>
    (validateFormatArgs args).map (fun a => some (handleFormatCells env a))
  | "gdocs_create_document" =>
    (validateCreateDocArgs args).map (fun a => some (handleCreateDocument env a))
  | "gdocs_get_document" =>
    (validateDocumentIdArgs args).map (fun a => some (handleGetDocument env a))
  | "gdocs_insert_text" =>
    (validateInsertTextArgs args).map (fun a => some (handleInsertText env a))
  | "gdocs_append_text" =>
    (validateInsertTextArgs args).map (fun a => some (handleAppendText env a))
  | "gdocs_replace_text" =>
    (validateReplaceTextArgs args).map (fun a => some (handleReplaceText env a))
  | "gdocs_format_text" =>
    (validateFormatTextArgs args).map (fun a => some (handleFormatText env a))
  | "gdocs_set_heading" =>
    (validateFormatTextArgs args).bind (fun fargs =>
      if !(args.get "headingLevel").truthy || (args.get "headingLevel").ltNum 1 ||
          (args.get "headingLevel").gtNum 6 then
        throw "Invalid headingLevel: expected number between 1 and 6"
      else
        pure (some (handleSetHeading env fargs (args.get "headingLevel"))))
  | "gsheets_get_auth_url" =>
    pure (some (handleGetAuthUrl env))
  | "gsheets_set_auth_code" =>
    if !(args.get "code").truthy then
      throw "Authorization code is required"
    else
      pure (some (handleSetAuthCode env (args.get "code")))
  | "gdrive_search" =>
    (validateDriveSearchArgs args).map (fun a => some (handleDriveSearch env a))
  | "gdrive_read_file" =>
    (validateDriveReadArgs args).map (fun a => some (handleDriveReadFile env a))
  | "gdrive_get_file_info" =>
    (validateDriveReadArgs args).map (fun a => some (handleDriveGetFileInfo env a))
  | "gdrive_move_file" =>
    (validateMoveFileArgs args).map (fun a => some (handleDriveMoveFile env a))
  | "gdrive_batch_move" =>
    (validateBatchMoveArgs args).map (fun a => some (handleDriveBatchMove env a))
  | "gdrive_create_folder" =>
    (validateCreateFolderArgs args).map (fun a => some (handleDriveCreateFolder env a))
  | "gdrive_copy_folder" =>
    (validateCopyFolderArgs args).map (fun a => handleDriveCopyFolder env fuel a)
  | "gdrive_search_content" =>
    (validateSearchContentArgs args).map (fun a => some (handleDriveSearchContent env a))
  | "gdrive_get_revisions" =>
    (validateGetRevisionsArgs args).map (fun a => some (handleDriveGetRevisions env a))
  | "gdrive_export_file" =>
    (validateExportFileArgs args).map (fun a => some (handleDriveExportFile env a))
  | "gdrive_batch_export" =>
    (validateBatchExportArgs args).map (fun a => some (handleDriveBatchExport env a))
  | "gdrive_list_folder_tree" =>
    (validateListFolderTreeArgs args).map (fun a => handleDriveListFolderTree env fuel a)
  | "gdrive_list_permissions" =>
    (validateListPermissionsArgs args).map (fun a => some (handleDriveListPermissions env a))
  | _ => throw ("Unknown tool: " ++ name)

/-- The whole tool call handler with its outer catch: a thrown error
never escapes and becomes an error envelope with the messages the
source formats. -/
def callTool (env : Env) (fuel : Nat) (name : String) (args : JValue) : Option Envelope :=
  match dispatchTool env fuel name args with
  | .ok oe => oe
  | .error m => some (errEnvelope ("Error: " ++ m))

/-- The invariant the claim about error enveloping asserts of every
response: exactly one content item, and it is a text item. -/
def wellFormedEnvelope (e : Envelope) : Prop :=
  e.content.length = 1 ∧ ∀ c ∈ e.content, c.type = "text"

/-- The children the copy handler sees for a given source value: the
file list the environment returns for the handler's listing query, or
the empty list when the call fails. -/
def copyFolderChildren (env : Env) (src : JValue) : List GFile :=
  match env.filesList (.obj [
    ("q", .str ("\x27" ++ src.interp ++ "\x27 in parents and trashed=false")),
    ("fields", .str "files(id, name, mimeType)")]) with
  | .ok fl => fl.files.getD []
  | .error _ => []

/-! ## Concrete environment fixtures used by witnesses -/

/-- Whether one batch move iteration succeeds in the given
environment. -/
def moveOk (env : Env) (target : String) (i : JValue) : Bool :=
  match moveOneFile env target i with
  | .ok _ => true
  | .error _ => false

/-- The message the batch move loop captures for a failing id. -/
def moveErr (env : Env) (target : String) (i : JValue) : String :=
  match moveOneFile env target i with
  | .ok _ => ""
  | .error m => m

/-- A small concrete environment for witnesses: every file exists
except the id bad, whose metadata fetch fails. -/
def sampleEnv : Env where
  generateAuthUrl := "URL"
  getToken := fun _ => .error "no token"
  filesGet := fun fid _ =>
    match fid with
    | .str "bad" => .error "File not found: bad"
    | _ => .ok { id := some "x", name := some "N", parents := some ["p1", "p2"] }
  filesGetMedia := fun _ => .error "no media"
  filesUpdate := fun _ _ _ _ => .ok {}
  filesCreate := fun _ _ => .ok { id := "new1", name := some "created", webViewLink := some "link" }
  filesList := fun _ => .ok { files := some [] }
  filesCopy := fun _ _ _ => .ok { id := some "c1" }
  filesExportText := fun _ _ => .error "no text export"
  filesExportBin := fun fid _ =>
    match fid with
    | .str "bad" => .error "Export failed: bad"
    | _ => .ok [1, 2, 3]
  revisionsList := fun _ _ _ => .ok {}
  permissionsList := fun _ _ => .ok {}
  sheetsCreate := fun _ => .ok "ss1"
  valuesBatchUpdate := fun _ _ => .ok {}
  valuesUpdate := fun _ _ _ => .ok ()
  valuesAppend := fun _ _ _ => .ok {}
  sheetsBatchUpdate := fun _ _ => .ok ()
  docsCreate := fun _ => .ok "doc1"
  docsGet := fun _ => .ok {}
  docsBatchUpdate := fun _ _ => .ok {}

/-- A concrete environment realizing the C2 scenario: the source
folder S holds the file F named File1 and the sub-folder D named Sub,
and D holds the file G named File2; every remote operation succeeds. -/
def treeEnv : Env := { sampleEnv with
  filesGet := fun fid _ =>
    match fid with
    | .str "S" => .ok { id := some "S", name := some "Src" }
    | .str "D" => .ok { id := some "D", name := some "Sub" }
    | _ => .error "not found"
  filesCreate := fun body _ =>
    .ok { id := "new-" ++ (body.get "name").interp, name := some (body.get "name").interp }
  filesList := fun params =>
    match params.get "q" with
    | .str q =>
      if q = "\x27S\x27 in parents and trashed=false" then
        .ok { files := some [
          { id := some "F", name := some "File1", mimeType := some "text/plain" },
          { id := some "D", name := some "Sub",
            mimeType := some "application/vnd.google-apps.folder" }] }
      else if q = "\x27D\x27 in parents and trashed=false" then
        .ok { files := some [
          { id := some "G", name := some "File2", mimeType := some "text/plain" }] }
      else .ok { files := some [] }
    | _ => .ok { files := some [] }
  filesCopy := fun fid _ _ => .ok { id := some ("copy-" ++ fid.interp) } }

/-- The result object the copy handler produces on the treeEnv
scenario. -/
def copyScenarioResult : JValue :=
  .obj [
    ("success", .bool true),
    ("newFolderId", .str "new-Copy of Src"),
    ("newFolderName", .str "Copy of Src"),
    ("url", .undefined),
    ("sourceFilesFound", .num 2),
    ("copiedFiles", .num 1),
    ("copiedFolders", .num 1),
    ("errors", .undefined)]

/-- The two file copy requests the copy handler issues on the treeEnv
scenario, in order: the top level file into the copy of S, and the
nested file into the copy of D. -/
def copyScenarioCalls : List CopyCall :=
  [{ fileId := .str "F", name := .str "File1", parents := ["new-Copy of Src"] },
   { fileId := .str "G", name := .str "File2", parents := ["new-Copy of Sub"] }]

/-- The treeEnv scenario with every file copy failing, so that each
child of each visited folder fails while the top-level lookups
succeed. -/
def failCopyEnv : Env :=
  { treeEnv with filesCopy := fun _ _ _ => .error "quota exceeded" }

/-- The one child entry of the cyclic environment: the folder X listed
as a child of every folder, X included. -/
def cycleChild : GFile :=
  { id := some "X", name := some "Loop",
    mimeType := some "application/vnd.google-apps.folder" }

/-- A concrete environment whose child listing returns the folder X as
its own child, so X is its own descendant: every remote operation
succeeds and the copy recursion can never finish. -/
def cycleEnv : Env := { sampleEnv with
  filesGet := fun fid _ =>
    match fid with
    | .str "X" => .ok { id := some "X", name := some "Loop" }
    | _ => .error "not found"
  filesList := fun _ => .ok { files := some [cycleChild] } }

/-! ## Theorems -/

/-- A successful match of the A1 regex forces a colon in the input:
the matched string is letters, digits, a colon, letters, digits. -/
theorem matchA1_some_colon {s : String} {q} (h : matchA1 s = some q) : ':' ∈ s.data := by
  unfold matchA1 at h
  dsimp only at h
  split at h
  · exact absurd h (by simp)
  · split at h
    · exact absurd h (by simp)
    · split at h
      case _ heq =>
        have h1 : ':' ∈ ((s.data.span isUpperAZ).2.span isDigit09).2 := by
          rw [heq]; exact List.mem_cons_self _ _
        rw [List.span_eq_take_drop] at h1
        have h2 : ':' ∈ (s.data.span isUpperAZ).2 := (List.dropWhile_sublist _).mem h1
        rw [List.span_eq_take_drop] at h2
        exact (List.dropWhile_sublist _).mem h2
      · exact absurd h (by simp)

/-- C6: the A1 translation maps A1:C3 to the zero-based half-open row
range zero to three and column range zero to three; a single-cell range
B2:B2 maps to a one-row, one-column range; an input without a colon, or
with missing row digits on either side, fails with the Invalid A1 range
message instead of returning a range. -/
theorem a1_grid_range_translation :
    a1ToGridRange "A1:C3" = .ok ⟨0, 3, 0, 3⟩ ∧
    a1ToGridRange "B2:B2" = .ok ⟨1, 2, 1, 2⟩ ∧
    (∀ s : String, ':' ∉ s.data → a1ToGridRange s = .error ("Invalid A1 range: " ++ s)) ∧
    a1ToGridRange "A:C" = .error "Invalid A1 range: A:C" ∧
    a1ToGridRange "A1:C" = .error "Invalid A1 range: A1:C" := by
  refine ⟨rfl, rfl, ?_, rfl, rfl⟩
  intro s hs
  unfold a1ToGridRange
  cases h : matchA1 s with
  | none => rfl
  | some q => exact absurd (matchA1_some_colon h) hs

/-- Witness for C6 at the concrete colon-free input A1. -/
theorem a1_grid_range_translation_witness :
    a1ToGridRange "A1" = .error "Invalid A1 range: A1" :=
  a1_grid_range_translation.2.2.1 "A1" (by decide)

/-- C7: for batch export, a format value outside the closed set pdf,
docx, xlsx, pptx is rejected by the validator with the expected-one-of
message, and the whole tool call then returns that error envelope
identically for every environment and fuel, so no remote call can have
been attempted; a value inside the set is accepted with the matching
typed format. -/
theorem batch_export_format_closed_set :
    ∀ (args : JValue) (ids : List JValue) (fmt : String),
      args.truthy = true → args.isObjectType = true →
      args.get "fileIds" = .arr ids → ids ≠ [] →
      args.get "format" = .str fmt →
      (fmt ∉ (["pdf", "docx", "xlsx", "pptx"] : List String) →
        validateBatchExportArgs args = .error "Invalid format: expected one of: pdf, docx, xlsx, pptx" ∧
        ∀ (env : Env) (fuel : Nat),
          callTool env fuel "gdrive_batch_export" args =
            some (errEnvelope "Error: Invalid format: expected one of: pdf, docx, xlsx, pptx")) ∧
      (∀ f : ExportFormat, fmt = f.name →
        validateBatchExportArgs args = .ok { fileIds := ids, format := f }) := by
  intro args ids fmt hT hO hIds hne hFmt
  have hni : ids.isEmpty = false := by
    cases ids with
    | nil => exact absurd rfl hne
    | cons a as => rfl
  constructor
  · intro hout
    have h1 : fmt ≠ "pdf" := fun h => hout (by simp [h])
    have h2 : fmt ≠ "docx" := fun h => hout (by simp [h])
    have h3 : fmt ≠ "xlsx" := fun h => hout (by simp [h])
    have h4 : fmt ≠ "pptx" := fun h => hout (by simp [h])
    have hv : validateBatchExportArgs args =
        .error "Invalid format: expected one of: pdf, docx, xlsx, pptx" := by
      unfold validateBatchExportArgs checkArgsObject
      simp only [hT, hO, hIds, hFmt, hni, Bool.not_true, Bool.or_self]
      rw [if_neg (fun h => Bool.noConfusion h), if_neg (fun h => Bool.noConfusion h)]
      split
      · rename_i heq; exact absurd (by injection heq) h1
      · rename_i heq; exact absurd (by injection heq) h2
      · rename_i heq; exact absurd (by injection heq) h3
      · rename_i heq; exact absurd (by injection heq) h4
      · rfl
    refine ⟨hv, fun env fuel => ?_⟩
    have hd : dispatchTool env fuel "gdrive_batch_export" args =
        .error "Invalid format: expected one of: pdf, docx, xlsx, pptx" := by
      unfold dispatchTool
      rw [hv]
      rfl
    unfold callTool
    rw [hd]
    rfl
  · intro f hf
    subst hf
    cases f <;>
      (unfold validateBatchExportArgs checkArgsObject
       simp only [hT, hO, hIds, hFmt, hni, Bool.not_true, Bool.or_self]
       rfl)

/-- Witness for C7 at a concrete object with format png (outside the
set) and one with format pdf (inside). -/
theorem batch_export_format_closed_set_witness :
    validateBatchExportArgs (.obj [("fileIds", .arr [.str "a"]), ("format", .str "png")]) =
      .error "Invalid format: expected one of: pdf, docx, xlsx, pptx" ∧
    validateBatchExportArgs (.obj [("fileIds", .arr [.str "a"]), ("format", .str "pdf")]) =
      .ok { fileIds := [.str "a"], format := ExportFormat.pdf } := by
  constructor
  · exact ((batch_export_format_closed_set
      (.obj [("fileIds", .arr [.str "a"]), ("format", .str "png")])
      [.str "a"] "png" rfl rfl rfl (by simp) rfl).1 (by decide)).1
  · exact (batch_export_format_closed_set
      (.obj [("fileIds", .arr [.str "a"]), ("format", .str "pdf")])
      [.str "a"] "pdf" rfl rfl rfl (by simp) rfl).2 ExportFormat.pdf rfl

/-- Unfolding equation for callTool. -/
theorem callTool_def (env : Env) (fuel : Nat) (name : String) (args : JValue) :
    callTool env fuel name args =
      match dispatchTool env fuel name args with
      | .ok oe => oe
      | .error m => some (errEnvelope ("Error: " ++ m)) := rfl

/-- Branch equation of the dispatch for the set heading tool. -/
theorem dispatchTool_set_heading (env : Env) (fuel : Nat) (args : JValue) :
    dispatchTool env fuel "gdocs_set_heading" args =
      ((validateFormatTextArgs args).bind (fun fargs =>
        let headingLevel := args.get "headingLevel"
        if !headingLevel.truthy || headingLevel.ltNum 1 || headingLevel.gtNum 6 then
          throw "Invalid headingLevel: expected number between 1 and 6"
        else
          pure (some (handleSetHeading env fargs headingLevel)))) := rfl

/-- C9: the set heading tool is validated through the format text
validator, which demands a truthy object-typed format field, even
though the declared input schema lists only documentId, startIndex,
endIndex and headingLevel; hence every call supplying exactly the
declared required fields, with values satisfying the earlier checks,
is rejected with the Invalid format message instead of being
dispatched. -/
theorem set_heading_format_undeclared_yet_required :
    gdocsSetHeadingSchemaProperties = ["documentId", "startIndex", "endIndex", "headingLevel"] ∧
    gdocsSetHeadingSchemaRequired = ["documentId", "startIndex", "endIndex", "headingLevel"] ∧
    "format" ∉ gdocsSetHeadingSchemaProperties ∧
    ∀ (env : Env) (fuel : Nat) (docId : String) (si ei hl : Int),
      docId ≠ "" → 0 ≤ si → si < ei →
      callTool env fuel "gdocs_set_heading"
        (.obj [("documentId", .str docId), ("startIndex", .num si),
               ("endIndex", .num ei), ("headingLevel", .num hl)]) =
        some (errEnvelope "Error: Invalid format: expected object") := by
  refine ⟨rfl, rfl, by decide, ?_⟩
  intro env fuel docId si ei hl hid hsi hei
  have hval : validateFormatTextArgs
      (.obj [("documentId", .str docId), ("startIndex", .num si),
             ("endIndex", .num ei), ("headingLevel", .num hl)]) =
      .error "Invalid format: expected object" := by
    simp [validateFormatTextArgs, checkArgsObject, reqStr, JValue.get,
      JValue.truthy, JValue.isObjectType, Except.map,
      hid, not_lt.mpr hsi, not_le.mpr hei]
    rfl
  rw [callTool_def, dispatchTool_set_heading, hval]
  rfl

/-- Witness for C9 at a concrete call. -/
theorem set_heading_format_undeclared_yet_required_witness :
    ∀ env : Env,
      callTool env 1 "gdocs_set_heading"
        (.obj [("documentId", .str "d"), ("startIndex", .num 0),
               ("endIndex", .num 5), ("headingLevel", .num 2)]) =
        some (errEnvelope "Error: Invalid format: expected object") :=
  fun env => set_heading_format_undeclared_yet_required.2.2.2 env 1 "d" 0 5 2
    (by decide) (by decide) (by decide)

/-- C5: whenever validation succeeds on a raw object in which the
optional field is omitted (an absent property reads as undefined), the
normalized request carries the documented default: page size 10 for
search, 100 for content search, 20 for revisions; sheet title Sheet1;
recursive true and metadata inclusion false for tree listing. -/
theorem validator_optional_defaults :
    (∀ (args : JValue) (a : DriveSearchArgs),
      args.get "pageSize" = .undefined →
      validateDriveSearchArgs args = .ok a → a.pageSize = .num 10) ∧
    (∀ (args : JValue) (a : SearchContentArgs),
      args.get "maxResults" = .undefined →
      validateSearchContentArgs args = .ok a → a.maxResults = .num 100) ∧
    (∀ (args : JValue) (a : GetRevisionsArgs),
      args.get "maxResults" = .undefined →
      validateGetRevisionsArgs args = .ok a → a.maxResults = .num 20) ∧
    (∀ (args : JValue) (a : CreateSheetArgs),
      args.get "sheetTitle" = .undefined →
      validateCreateArgs args = .ok a → a.sheetTitle = .str "Sheet1") ∧
    (∀ (args : JValue) (a : ListFolderTreeArgs),
      args.get "recursive" = .undefined →
      validateListFolderTreeArgs args = .ok a → a.recursive = true) ∧
    (∀ (args : JValue) (a : ListFolderTreeArgs),
      args.get "includeMetadata" = .undefined →
      validateListFolderTreeArgs args = .ok a → a.includeMetadata = false) := by
  refine ⟨?_, ?_, ?_, ?_, ?_, ?_⟩
  · intro args a hopt h
    unfold validateDriveSearchArgs at h
    simp only [bind, Except.bind] at h
    split at h
    · exact Except.noConfusion h
    · split at h
      · exact Except.noConfusion h
      · injection h with h
        subst h
        simp [hopt, JValue.jsOr, JValue.truthy]
  · intro args a hopt h
    unfold validateSearchContentArgs at h
    simp only [bind, Except.bind] at h
    split at h
    · exact Except.noConfusion h
    · split at h
      · exact Except.noConfusion h
      · split at h
        · exact Except.noConfusion h
        · split at h
          · exact Except.noConfusion h
          · injection h with h
            subst h
            simp [hopt, JValue.jsOr, JValue.truthy]
  · intro args a hopt h
    unfold validateGetRevisionsArgs at h
    simp only [bind, Except.bind] at h
    split at h
    · exact Except.noConfusion h
    · split at h
      · exact Except.noConfusion h
      · split at h
        · exact Except.noConfusion h
        · injection h with h
          subst h
          simp [hopt, JValue.jsOr, JValue.truthy]
  · intro args a hopt h
    unfold validateCreateArgs at h
    simp only [bind, Except.bind] at h
    split at h
    · exact Except.noConfusion h
    · split at h
      · exact Except.noConfusion h
      · split at h
        · exact Except.noConfusion h
        · injection h with h
          subst h
          simp [hopt, JValue.jsOr, JValue.truthy]
  · intro args a hopt h
    unfold validateListFolderTreeArgs at h
    simp only [bind, Except.bind] at h
    split at h
    · exact Except.noConfusion h
    · split at h
      · exact Except.noConfusion h
      · injection h with h
        subst h
        simp [hopt]
  · intro args a hopt h
    unfold validateListFolderTreeArgs at h
    simp only [bind, Except.bind] at h
    split at h
    · exact Except.noConfusion h
    · split at h
      · exact Except.noConfusion h
      · injection h with h
        subst h
        simp [hopt]

/-- Witness for C5 at concrete argument objects omitting each optional
field. -/
theorem validator_optional_defaults_witness :
    (∃ a, validateDriveSearchArgs (.obj [("query", .str "q")]) = .ok a ∧ a.pageSize = .num 10) ∧
    (∃ a, validateSearchContentArgs (.obj [("query", .str "q")]) = .ok a ∧ a.maxResults = .num 100) ∧
    (∃ a, validateGetRevisionsArgs (.obj [("fileId", .str "f")]) = .ok a ∧ a.maxResults = .num 20) ∧
    (∃ a, validateCreateArgs (.obj [("title", .str "t")]) = .ok a ∧ a.sheetTitle = .str "Sheet1") ∧
    (∃ a, validateListFolderTreeArgs (.obj [("folderId", .str "f")]) = .ok a ∧
      a.recursive = true ∧ a.includeMetadata = false) := by
  refine ⟨⟨_, rfl, ?_⟩, ⟨_, rfl, ?_⟩, ⟨_, rfl, ?_⟩, ⟨_, rfl, ?_⟩, ⟨_, rfl, ?_, ?_⟩⟩
  · exact validator_optional_defaults.1 (.obj [("query", .str "q")]) _ rfl rfl
  · exact validator_optional_defaults.2.1 (.obj [("query", .str "q")]) _ rfl rfl
  · exact validator_optional_defaults.2.2.1 (.obj [("fileId", .str "f")]) _ rfl rfl
  · exact validator_optional_defaults.2.2.2.1 (.obj [("title", .str "t")]) _ rfl rfl
  · exact validator_optional_defaults.2.2.2.2.1 (.obj [("folderId", .str "f")]) _ rfl rfl
  · exact validator_optional_defaults.2.2.2.2.2 (.obj [("folderId", .str "f")]) _ rfl rfl

/-- C10: the validators cannot tell a present falsy optional from an
omitted one.  A provided page size of zero normalizes to 10, a provided
maxResults of zero to 100 for content search and 20 for revisions, an
empty sheet title to Sheet1; and for explicitly built argument objects
the validator result with the falsy field present equals the result
with the field omitted. -/
theorem validator_falsy_optionals_replaced :
    (∀ (args : JValue) (a : DriveSearchArgs),
      args.get "pageSize" = .num 0 →
      validateDriveSearchArgs args = .ok a → a.pageSize = .num 10) ∧
    (∀ (args : JValue) (a : SearchContentArgs),
      args.get "maxResults" = .num 0 →
      validateSearchContentArgs args = .ok a → a.maxResults = .num 100) ∧
    (∀ (args : JValue) (a : GetRevisionsArgs),
      args.get "maxResults" = .num 0 →
      validateGetRevisionsArgs args = .ok a → a.maxResults = .num 20) ∧
    (∀ (args : JValue) (a : CreateSheetArgs),
      args.get "sheetTitle" = .str "" →
      validateCreateArgs args = .ok a → a.sheetTitle = .str "Sheet1") ∧
    (∀ q pt : JValue,
      validateDriveSearchArgs (.obj [("query", q), ("pageSize", .num 0), ("pageToken", pt)]) =
        validateDriveSearchArgs (.obj [("query", q), ("pageToken", pt)])) ∧
    (∀ q : JValue,
      validateSearchContentArgs (.obj [("query", q), ("maxResults", .num 0)]) =
        validateSearchContentArgs (.obj [("query", q)])) ∧
    (∀ f : JValue,
      validateGetRevisionsArgs (.obj [("fileId", f), ("maxResults", .num 0)]) =
        validateGetRevisionsArgs (.obj [("fileId", f)])) ∧
    (∀ t : JValue,
      validateCreateArgs (.obj [("title", t), ("sheetTitle", .str "")]) =
        validateCreateArgs (.obj [("title", t)])) := by
  refine ⟨?_, ?_, ?_, ?_, fun q pt => rfl, fun q => rfl, fun f => rfl, fun t => rfl⟩
  · intro args a hopt h
    unfold validateDriveSearchArgs at h
    simp only [bind, Except.bind] at h
    split at h
    · exact Except.noConfusion h
    · split at h
      · exact Except.noConfusion h
      · injection h with h
        subst h
        simp [hopt, JValue.jsOr, JValue.truthy]
  · intro args a hopt h
    unfold validateSearchContentArgs at h
    simp only [bind, Except.bind] at h
    split at h
    · exact Except.noConfusion h
    · split at h
      · exact Except.noConfusion h
      · split at h
        · exact Except.noConfusion h
        · split at h
          · exact Except.noConfusion h
          · injection h with h
            subst h
            simp [hopt, JValue.jsOr, JValue.truthy]
  · intro args a hopt h
    unfold validateGetRevisionsArgs at h
    simp only [bind, Except.bind] at h
    split at h
    · exact Except.noConfusion h
    · split at h
      · exact Except.noConfusion h
      · split at h
        · exact Except.noConfusion h
        · injection h with h
          subst h
          simp [hopt, JValue.jsOr, JValue.truthy]
  · intro args a hopt h
    unfold validateCreateArgs at h
    simp only [bind, Except.bind] at h
    split at h
    · exact Except.noConfusion h
    · split at h
      · exact Except.noConfusion h
      · split at h
        · exact Except.noConfusion h
        · injection h with h
          subst h
          simp [hopt, JValue.jsOr, JValue.truthy]

/-- Witness for C10 at concrete objects carrying the falsy values. -/
theorem validator_falsy_optionals_replaced_witness :
    (∃ a, validateDriveSearchArgs (.obj [("query", .str "q"), ("pageSize", .num 0)]) = .ok a ∧
      a.pageSize = .num 10) ∧
    (∃ a, validateSearchContentArgs (.obj [("query", .str "q"), ("maxResults", .num 0)]) = .ok a ∧
      a.maxResults = .num 100) ∧
    (∃ a, validateGetRevisionsArgs (.obj [("fileId", .str "f"), ("maxResults", .num 0)]) = .ok a ∧
      a.maxResults = .num 20) ∧
    (∃ a, validateCreateArgs (.obj [("title", .str "t"), ("sheetTitle", .str "")]) = .ok a ∧
      a.sheetTitle = .str "Sheet1") ∧
    validateDriveSearchArgs (.obj [("query", .str "q"), ("pageSize", .num 0), ("pageToken", .undefined)]) =
      validateDriveSearchArgs (.obj [("query", .str "q"), ("pageToken", .undefined)]) := by
  refine ⟨⟨_, rfl, ?_⟩, ⟨_, rfl, ?_⟩, ⟨_, rfl, ?_⟩, ⟨_, rfl, ?_⟩, ?_⟩
  · exact validator_falsy_optionals_replaced.1
      (.obj [("query", .str "q"), ("pageSize", .num 0)]) _ rfl rfl
  · exact validator_falsy_optionals_replaced.2.1
      (.obj [("query", .str "q"), ("maxResults", .num 0)]) _ rfl rfl
  · exact validator_falsy_optionals_replaced.2.2.1
      (.obj [("fileId", .str "f"), ("maxResults", .num 0)]) _ rfl rfl
  · exact validator_falsy_optionals_replaced.2.2.2.1
      (.obj [("title", .str "t"), ("sheetTitle", .str "")]) _ rfl rfl
  · exact validator_falsy_optionals_replaced.2.2.2.2.1 (.str "q") .undefined

theorem batchMoveLoop_attempted (env : Env) (target : String) :
    ∀ ids, (batchMoveLoop env target ids).attempted = ids := by
  intro ids
  induction ids with
  | nil => rfl
  | cons i rest ih =>
    cases h : moveOneFile env target i <;>
      simp [batchMoveLoop, h, ih]

theorem batchMoveLoop_success (env : Env) (target : String) :
    ∀ ids, (batchMoveLoop env target ids).success = ids.filter (moveOk env target) := by
  intro ids
  induction ids with
  | nil => rfl
  | cons i rest ih =>
    cases h : moveOneFile env target i <;>
      simp [batchMoveLoop, h, ih, List.filter_cons, moveOk]

theorem batchMoveLoop_failed (env : Env) (target : String) :
    ∀ ids, (batchMoveLoop env target ids).failed =
      (ids.filter (fun i => !moveOk env target i)).map
        (fun i => (i, moveErr env target i)) := by
  intro ids
  induction ids with
  | nil => rfl
  | cons i rest ih =>
    cases h : moveOneFile env target i <;>
      simp [batchMoveLoop, h, ih, List.filter_cons, moveOk, moveErr]

theorem length_filter_split {α : Type} (p : α → Bool) (l : List α) :
    (l.filter p).length + (l.filter (fun a => !p a)).length = l.length := by
  induction l with
  | nil => rfl
  | cons a l ih =>
    by_cases h : p a <;> simp [List.filter_cons, h] <;> omega

/-- C1: the batch move loop attempts every input id in input order,
partitions the ids into success and failed exactly (an id lands in
exactly one bucket, keeping input order, and a failure never stops the
remaining iterations), records the caught message for each failure,
reports movedCount and failedCount from the two buckets, and when
exactly one id fails the result reports movedCount N minus one and
failedCount one. -/
theorem batch_move_partition_and_counts :
    ∀ (env : Env) (args : BatchMoveArgs),
      (batchMoveLoop env args.targetFolderId args.fileIds).attempted = args.fileIds ∧
      (batchMoveLoop env args.targetFolderId args.fileIds).success =
        args.fileIds.filter (moveOk env args.targetFolderId) ∧
      (batchMoveLoop env args.targetFolderId args.fileIds).failed =
        (args.fileIds.filter (fun i => !moveOk env args.targetFolderId i)).map
          (fun i => (i, moveErr env args.targetFolderId i)) ∧
      (∀ p ∈ (batchMoveLoop env args.targetFolderId args.fileIds).failed,
        moveOneFile env args.targetFolderId p.1 = .error p.2) ∧
      (∀ i ∈ args.fileIds,
        (i ∈ (batchMoveLoop env args.targetFolderId args.fileIds).success ∧
          i ∉ (batchMoveLoop env args.targetFolderId args.fileIds).failed.map (fun p => p.1)) ∨
        (i ∉ (batchMoveLoop env args.targetFolderId args.fileIds).success ∧
          i ∈ (batchMoveLoop env args.targetFolderId args.fileIds).failed.map (fun p => p.1))) ∧
      (batchMoveLoop env args.targetFolderId args.fileIds).success.length +
        (batchMoveLoop env args.targetFolderId args.fileIds).failed.length =
        args.fileIds.length ∧
      (batchMoveResult env args).get "movedCount" =
        .num (batchMoveLoop env args.targetFolderId args.fileIds).success.length ∧
      (batchMoveResult env args).get "failedCount" =
        .num (batchMoveLoop env args.targetFolderId args.fileIds).failed.length ∧
      ((args.fileIds.filter (fun i => !moveOk env args.targetFolderId i)).length = 1 →
        (batchMoveLoop env args.targetFolderId args.fileIds).failed.length = 1 ∧
        (batchMoveLoop env args.targetFolderId args.fileIds).success.length =
          args.fileIds.length - 1) := by
  intro env args
  have hs := batchMoveLoop_success env args.targetFolderId args.fileIds
  have hf := batchMoveLoop_failed env args.targetFolderId args.fileIds
  have hlen : (batchMoveLoop env args.targetFolderId args.fileIds).success.length +
      (batchMoveLoop env args.targetFolderId args.fileIds).failed.length =
      args.fileIds.length := by
    rw [hs, hf, List.length_map]
    exact length_filter_split _ _
  refine ⟨batchMoveLoop_attempted env args.targetFolderId args.fileIds, hs, hf, ?_, ?_, hlen, rfl, rfl, ?_⟩
  · intro p hp
    rw [hf] at hp
    obtain ⟨i, hi, hpi⟩ := List.mem_map.mp hp
    have hno : moveOk env args.targetFolderId i = false := by
      have := (List.mem_filter.mp hi).2
      simpa using this
    subst hpi
    unfold moveOk at hno
    unfold moveErr
    split at hno
    · exact Bool.noConfusion hno
    · rename_i m heq
      simp [heq]
  · intro i hi
    by_cases h : moveOk env args.targetFolderId i
    · left
      constructor
      · rw [hs]; exact List.mem_filter.mpr ⟨hi, h⟩
      · rw [hf]
        intro hmem
        simp only [List.map_map] at hmem
        obtain ⟨j, hj, hji⟩ := List.mem_map.mp hmem
        have := (List.mem_filter.mp hj).2
        simp only [Function.comp] at hji
        rw [hji] at this
        simp [h] at this
    · right
      constructor
      · rw [hs]
        intro hmem
        exact h ((List.mem_filter.mp hmem).2)
      · rw [hf]
        simp only [List.map_map]
        refine List.mem_map.mpr ⟨i, List.mem_filter.mpr ⟨hi, by simp [h]⟩, rfl⟩
  · intro hone
    have hfl : (batchMoveLoop env args.targetFolderId args.fileIds).failed.length = 1 := by
      rw [hf, List.length_map, hone]
    exact ⟨hfl, by omega⟩

/-- Witness for C1: three ids of which exactly the middle one fails its
fetch; the theorem instantiated there yields failedCount one and
movedCount two. -/
theorem batch_move_partition_and_counts_witness :
    (batchMoveLoop sampleEnv "tgt" [.str "a", .str "bad", .str "c"]).failed.length = 1 ∧
    (batchMoveLoop sampleEnv "tgt" [.str "a", .str "bad", .str "c"]).success.length = 3 - 1 :=
  (batch_move_partition_and_counts sampleEnv
    { fileIds := [.str "a", .str "bad", .str "c"], targetFolderId := "tgt" }).2.2.2.2.2.2.2.2
    (by rfl)

/-- Counterexample for C2: on a source folder holding one file and one
sub-folder that holds one file, with every remote call succeeding, the
handler reports copiedFiles one, not two — the recursive call returns
its own envelope and the caller discards its counters. -/
theorem copy_folder_recursion_counts_counterexample :
    copyFolderRun treeEnv 10
      { sourceFolderId := .str "S", targetParentFolderId := .undefined, newName := .undefined } =
      some (.ok copyScenarioResult, copyScenarioCalls) ∧
    copyScenarioResult.get "copiedFiles" = .num 1 ∧
    copyScenarioResult.get "copiedFiles" ≠ .num 2 := by
  refine ⟨rfl, rfl, fun h => ?_⟩
  rw [show copyScenarioResult.get "copiedFiles" = .num 1 from rfl] at h
  exact absurd (by injection h) (by norm_num)

/-- C2 amended: in that scenario the result reports copiedFiles one
and copiedFolders one, because the counters are per invocation and
count only the source folder's immediate children; the file inside the
sub-folder is nevertheless copied by the recursive call, and both
issued copy requests carry the child's own original name. -/
theorem copy_folder_recursion_counts_amended :
    copyFolderRun treeEnv 10
      { sourceFolderId := .str "S", targetParentFolderId := .undefined, newName := .undefined } =
      some (.ok copyScenarioResult, copyScenarioCalls) ∧
    copyScenarioResult.get "copiedFiles" = .num 1 ∧
    copyScenarioResult.get "copiedFolders" = .num 1 ∧
    copyScenarioResult.get "sourceFilesFound" = .num 2 ∧
    copyScenarioResult.get "errors" = .undefined ∧
    copyScenarioCalls.map (fun c => c.name) = [.str "File1", .str "File2"] :=
  ⟨rfl, rfl, rfl, rfl, rfl, rfl⟩

/-- The child loop completes whenever the recursive re-entry completes
on every folder child. -/
theorem copyChildrenWith_isSome (env : Env)
    (recur : CopyFolderArgs → Option (Except String JValue × List CopyCall))
    (newId : String) (files : List GFile)
    (h : ∀ f ∈ files, f.mimeType = some "application/vnd.google-apps.folder" →
      (recur { sourceFolderId := jopt f.id, targetParentFolderId := .str newId,
               newName := .undefined }).isSome) :
    (copyChildrenWith env recur newId files).isSome := by
  induction files with
  | nil => rfl
  | cons f rest ih =>
    have hrest := ih (fun g hg => h g (List.mem_cons_of_mem _ hg))
    unfold copyChildrenWith
    split
    · rename_i hmime
      obtain ⟨v, hv⟩ := Option.isSome_iff_exists.mp (h f (List.mem_cons_self _ _) hmime)
      rw [hv]
      obtain ⟨w, hw⟩ := Option.isSome_iff_exists.mp hrest
      rw [hw]
      rfl
    · obtain ⟨w, hw⟩ := Option.isSome_iff_exists.mp hrest
      rw [hw]
      rfl

/-- Fuel induction for the termination half of C8: a rank function
decreasing across the folder child relation bounds the recursion
depth. -/
theorem copy_folder_terminates_of_rank (env : Env) (rank : JValue → Nat)
    (hrank : ∀ (src : JValue) (f : GFile),
      f ∈ copyFolderChildren env src →
      f.mimeType = some "application/vnd.google-apps.folder" →
      rank (jopt f.id) < rank src) :
    ∀ (n : Nat) (args : CopyFolderArgs), rank args.sourceFolderId < n →
      (copyFolderRun env n args).isSome := by
  intro n
  induction n with
  | zero => intro args h; exact absurd h (Nat.not_lt_zero _)
  | succ m ih =>
    intro args hlt
    unfold copyFolderRun
    cases hget : env.filesGet args.sourceFolderId "id, name" with
    | error e => rfl
    | ok sourceFolder =>
      dsimp only
      cases hcre : env.filesCreate (.obj (
          [("name", args.newName.jsOr (.str ("Copy of " ++ (jopt sourceFolder.name).interp))),
           ("mimeType", .str "application/vnd.google-apps.folder")] ++
          (if args.targetParentFolderId.truthy then [("parents", .arr [args.targetParentFolderId])] else [])))
          "id, name, webViewLink" with
      | error e => rfl
      | ok newFolder =>
        dsimp only
        cases hlist : env.filesList (.obj [
            ("q", .str ("\x27" ++ args.sourceFolderId.interp ++ "\x27 in parents and trashed=false")),
            ("fields", .str "files(id, name, mimeType)")]) with
        | error e => rfl
        | ok files =>
          dsimp only
          have hch : (copyChildrenWith env (copyFolderRun env m) newFolder.id
              (files.files.getD [])).isSome := by
            apply copyChildrenWith_isSome
            intro f hf hmime
            apply ih
            have hmem : f ∈ copyFolderChildren env args.sourceFolderId := by
              unfold copyFolderChildren
              rw [hlist]
              exact hf
            have := hrank args.sourceFolderId f hmem hmime
            show rank (jopt f.id) < m
            omega
          obtain ⟨v, hv⟩ := Option.isSome_iff_exists.mp hch
          obtain ⟨counts, calls⟩ := v
          rw [hv]
          rfl

/-- Divergence half of C8: in the cyclic environment the run on X
exhausts every fuel bound, whatever parent and name it was entered
with. -/
theorem copy_folder_cycle_diverges :
    ∀ (fuel : Nat) (parent newName : JValue),
      copyFolderRun cycleEnv fuel
        { sourceFolderId := .str "X", targetParentFolderId := parent,
          newName := newName } = none := by
  intro fuel
  induction fuel with
  | zero => intro parent newName; rfl
  | succ m ih =>
    intro parent newName
    have hget : cycleEnv.filesGet (.str "X") "id, name" =
        .ok { id := some "X", name := some "Loop" } := rfl
    have hcre : ∀ body : JValue, cycleEnv.filesCreate body "id, name, webViewLink" =
        .ok { id := "new1", name := some "created", webViewLink := some "link" } := fun _ => rfl
    have hlist : ∀ p : JValue, cycleEnv.filesList p =
        .ok { nextPageToken := none, files := some [cycleChild] } := fun _ => rfl
    unfold copyFolderRun
    rw [hget]
    dsimp only
    rw [hcre]
    dsimp only
    rw [hlist]
    dsimp only
    rw [show (some [cycleChild]).getD [] = [cycleChild] from rfl]
    unfold copyChildrenWith
    rw [if_pos (show cycleChild.mimeType = some "application/vnd.google-apps.folder" from rfl)]
    rw [show (jopt cycleChild.id) = JValue.str "X" from rfl]
    rw [ih (.str "new1") .undefined]

/-- C8: the recursive folder copy has no cycle guard.  When the folder
child relation of the environment admits a decreasing rank (the form a
finite acyclic listing takes), the recursion completes within fuel
rank plus one; and in the concrete environment whose listing returns
the folder X as its own child, no fuel bound suffices — the recursion
never completes. -/
theorem copy_folder_no_cycle_detection :
    (∀ (env : Env) (rank : JValue → Nat),
      (∀ (src : JValue) (f : GFile),
        f ∈ copyFolderChildren env src →
        f.mimeType = some "application/vnd.google-apps.folder" →
        rank (jopt f.id) < rank src) →
      ∀ args : CopyFolderArgs,
        (copyFolderRun env (rank args.sourceFolderId + 1) args).isSome) ∧
    (∀ (fuel : Nat) (parent newName : JValue),
      copyFolderRun cycleEnv fuel
        { sourceFolderId := .str "X", targetParentFolderId := parent,
          newName := newName } = none) :=
  ⟨fun env rank h args =>
    copy_folder_terminates_of_rank env rank h _ args (Nat.lt_succ_self _),
   copy_folder_cycle_diverges⟩

/-- Witness for C8: an environment whose listing never returns folder
children satisfies the rank hypothesis vacuously, and the run finishes
with one unit of fuel; the divergence half instantiated at fuel 50. -/
theorem copy_folder_no_cycle_detection_witness :
    (copyFolderRun sampleEnv 1
      { sourceFolderId := .str "S", targetParentFolderId := .undefined, newName := .undefined }).isSome ∧
    copyFolderRun cycleEnv 50
      { sourceFolderId := .str "X", targetParentFolderId := .undefined, newName := .undefined } = none :=
  ⟨copy_folder_no_cycle_detection.1 sampleEnv (fun _ => 0)
    (fun src f hf _ =>
      absurd ((show copyFolderChildren sampleEnv src = [] from rfl) ▸ hf) (List.not_mem_nil f))
    { sourceFolderId := .str "S", targetParentFolderId := .undefined, newName := .undefined },
   copy_folder_no_cycle_detection.2 50 .undefined .undefined⟩

/-- C4: a batch or recursive operation whose sub-items fail is still
reported without isError.  The batch move and batch export envelopes
never carry isError, whatever the environment does to individual items;
the folder copy envelope carries no isError whenever its own run
completed with a result object (per-child failures only populate the
errors list); and a failure of the handler's own precondition — the
source folder fetch — does produce an isError envelope. -/
theorem partial_batch_failures_not_isError :
    (∀ (env : Env) (args : BatchMoveArgs),
      (handleDriveBatchMove env args).isError = none) ∧
    (∀ (env : Env) (args : BatchExportArgs),
      (handleDriveBatchExport env args).isError = none) ∧
    (∀ (env : Env) (fuel : Nat) (args : CopyFolderArgs),
      (∃ result calls, copyFolderRun env fuel args = some (.ok result, calls)) →
      ∃ e, handleDriveCopyFolder env fuel args = some e ∧ e.isError = none) ∧
    (∀ (env : Env) (fuel : Nat) (args : CopyFolderArgs) (m : String),
      env.filesGet args.sourceFolderId "id, name" = .error m →
      handleDriveCopyFolder env (fuel + 1) args =
        some (errEnvelope ("Error copying folder: " ++ errString m))) := by
  refine ⟨fun env args => rfl, fun env args => rfl, ?_, ?_⟩
  · intro env fuel args ⟨result, calls, hrun⟩
    have h : handleDriveCopyFolder env fuel args =
        some (wrapTry "Error copying folder: " ((Except.ok result).map JValue.stringify)) := by
      unfold handleDriveCopyFolder
      rw [hrun]
      rfl
    exact ⟨_, h, rfl⟩
  · intro env fuel args m hget
    unfold handleDriveCopyFolder copyFolderRun
    rw [hget]
    rfl

/-- Witness for C4: batch move and export with one failing item keep
isError unset; the copy scenario with every file copy failing completes
with a non-error envelope; and a missing source folder produces the
error envelope. -/
theorem partial_batch_failures_not_isError_witness :
    (handleDriveBatchMove sampleEnv
      { fileIds := [.str "a", .str "bad"], targetFolderId := "t" }).isError = none ∧
    (handleDriveBatchExport sampleEnv
      { fileIds := [.str "a", .str "bad"], format := .pdf }).isError = none ∧
    (∃ e, handleDriveCopyFolder failCopyEnv 10
      { sourceFolderId := .str "S", targetParentFolderId := .undefined, newName := .undefined } =
        some e ∧ e.isError = none) ∧
    handleDriveCopyFolder treeEnv 10
      { sourceFolderId := .str "missing", targetParentFolderId := .undefined, newName := .undefined } =
      some (errEnvelope ("Error copying folder: " ++ errString "not found")) :=
  ⟨partial_batch_failures_not_isError.1 sampleEnv
      { fileIds := [.str "a", .str "bad"], targetFolderId := "t" },
   partial_batch_failures_not_isError.2.1 sampleEnv
      { fileIds := [.str "a", .str "bad"], format := .pdf },
   partial_batch_failures_not_isError.2.2.1 failCopyEnv 10
      { sourceFolderId := .str "S", targetParentFolderId := .undefined, newName := .undefined }
      ⟨_, _, rfl⟩,
   partial_batch_failures_not_isError.2.2.2 treeEnv 9
      { sourceFolderId := .str "missing", targetParentFolderId := .undefined, newName := .undefined }
      "not found" rfl⟩

theorem okEnvelope_wf (t : String) : wellFormedEnvelope (okEnvelope t) :=
  ⟨rfl, fun c hc => by rcases List.mem_singleton.mp hc with rfl; rfl⟩

theorem errEnvelope_wf (t : String) : wellFormedEnvelope (errEnvelope t) :=
  ⟨rfl, fun c hc => by rcases List.mem_singleton.mp hc with rfl; rfl⟩

theorem wrapTry_wf (l : String) (r : Except String String) :
    wellFormedEnvelope (wrapTry l r) := by
  cases r with
  | ok t => exact okEnvelope_wf t
  | error m => exact errEnvelope_wf (l ++ errString m)

theorem except_map_ok {ε α β : Type} {x : Except ε α} {f : α → β} {y : β}
    (h : x.map f = .ok y) : ∃ a, x = .ok a ∧ y = f a := by
  cases x with
  | error e => exact Except.noConfusion h
  | ok a =>
    refine ⟨a, rfl, ?_⟩
    injection h with h
    exact h.symm

theorem dispatch_ok_wf (env : Env) (fuel : Nat) (name : String) (args : JValue)
    (oe : Option Envelope) (h : dispatchTool env fuel name args = .ok oe) :
    ∀ e, oe = some e → wellFormedEnvelope e := by
  unfold dispatchTool at h
  split at h
  all_goals intro e he
  all_goals try (
    obtain ⟨a, hx, hy⟩ := except_map_ok h
    subst hy
    injection he with he2
    subst he2
    exact wrapTry_wf _ _)
  all_goals try (
    obtain ⟨a, hx, hy⟩ := except_map_ok h
    subst hy
    obtain ⟨r, hr, he2⟩ := Option.map_eq_some'.mp he
    rw [← he2]
    exact wrapTry_wf _ _)
  all_goals try (
    injection h with h2
    rw [← h2] at he
    injection he with he3
    subst he3
    exact wrapTry_wf _ _)
  all_goals try (exact Except.noConfusion h)
  all_goals try (
    split at h
    · exact Except.noConfusion h
    · injection h with h2
      rw [← h2] at he
      injection he with he3
      subst he3
      exact wrapTry_wf _ _)
  all_goals (
    cases hv : validateFormatTextArgs args with
    | error m =>
      rw [hv] at h
      exact Except.noConfusion h
    | ok fargs =>
      rw [hv] at h
      simp only [Except.bind] at h
      split at h
      · exact Except.noConfusion h
      · injection h with h2
        rw [← h2] at he
        injection he with he3
        subst he3
        exact wrapTry_wf _ _)

/-- C3: no exception escapes the tool call handler.  Every completed
invocation, whatever the tool name, arguments and environment, yields
an envelope with exactly one text content item; and whenever the
dispatch body throws (validation failure or unknown tool), the handler
returns that message as an error envelope with isError true instead of
propagating it. -/
theorem tool_call_errors_enveloped :
    (∀ (env : Env) (fuel : Nat) (name : String) (args : JValue) (e : Envelope),
      callTool env fuel name args = some e → wellFormedEnvelope e) ∧
    (∀ (env : Env) (fuel : Nat) (name : String) (args : JValue) (m : String),
      dispatchTool env fuel name args = .error m →
      callTool env fuel name args = some (errEnvelope ("Error: " ++ m))) ∧
    (∀ l m : String,
      wrapTry l (.error m) = errEnvelope (l ++ errString m)) := by
  refine ⟨?_, ?_, fun l m => rfl⟩
  · intro env fuel name args e hres
    rw [callTool_def] at hres
    cases hd : dispatchTool env fuel name args with
    | error m =>
      rw [hd] at hres
      injection hres with h2
      rw [← h2]
      exact errEnvelope_wf _
    | ok oe =>
      rw [hd] at hres
      exact dispatch_ok_wf env fuel name args oe hd e hres
  · intro env fuel name args m hd
    rw [callTool_def, hd]

/-- Witness for C3: an unknown tool name is thrown in the dispatch and
comes back as a well-formed error envelope. -/
theorem tool_call_errors_enveloped_witness :
    callTool sampleEnv 1 "bogus_tool" (.obj []) =
      some (errEnvelope "Error: Unknown tool: bogus_tool") ∧
    wellFormedEnvelope (errEnvelope "Error: Unknown tool: bogus_tool") :=
  ⟨tool_call_errors_enveloped.2.1 sampleEnv 1 "bogus_tool" (.obj [])
      "Unknown tool: bogus_tool" rfl,
   tool_call_errors_enveloped.1 sampleEnv 1 "bogus_tool" (.obj []) _
      (tool_call_errors_enveloped.2.1 sampleEnv 1 "bogus_tool" (.obj [])
        "Unknown tool: bogus_tool" rfl)⟩
